import Mathlib

/-!
Shallow embedding of the two weather-dashboard scripts
`src/weatherproject.py` (interactive Streamlit variant) and
`src/whetherproject.py` (batch matplotlib variant).

Modelling conventions:
* JSON values are an inductive `Json`; numbers are rationals.
* HTTP calls are resolved by an oracle value `HttpResult`: either the
  underlying `requests.get` raised (connection error, timeout, ...) or it
  produced a response with a status code and a body that may or may not
  parse as JSON.  `raise_for_status` raises exactly when `400 ≤ status`;
  a body that does not parse makes `response.json()` raise.  All of those
  exceptions are `requests.RequestException`s in the modelled library.
* Observable behaviour (Streamlit widgets, prints, files written) is a
  trace `List Event`.  `st.stop()` is the `StResult.stopped` outcome.
* An uncaught Python exception (e.g. a `KeyError` while rendering) makes
  the modelled run return `none`.
* Environment variables are a function `String → Option String`;
  `random` draws, `datetime.fromtimestamp`-based formatting, `str.strip`,
  `str.isalpha`, `str.isspace` and Python's `round` are oracle
  parameters, since they depend on the platform (locale, timezone,
  Unicode tables, float rounding) and no claim depends on their values.
-/

inductive Json where
  | null
  | bool (b : Bool)
  | num (q : ℚ)
  | str (s : String)
  | arr (elems : List Json)
  | obj (fields : List (String × Json))

/-- Dictionary lookup `j[k]`; `none` models the `KeyError`/`TypeError`
raised when the value is not a dict or lacks the key. -/
def Json.get : Json → String → Option Json
  | .obj fields, k => List.lookup k fields
  | _, _ => none

/-- List indexing `j[i]`. -/
def Json.index : Json → Nat → Option Json
  | .arr xs, i => xs.get? i
  | _, _ => none

/-- Chained dictionary lookups `j[k1][k2]...`. -/
def Json.getPath (j : Json) : List String → Option Json
  | [] => some j
  | k :: ks => (j.get k).bind (fun v => v.getPath ks)

def Json.asNum : Json → Option ℚ
  | .num q => some q
  | _ => none

def Json.asStr : Json → Option String
  | .str s => some s
  | _ => none

def Json.asArr : Json → Option (List Json)
  | .arr xs => some xs
  | _ => none

/-- `j['weather'][0]['main']`, the access pattern both scripts use for
the weather condition. -/
def weatherMainOf (j : Json) : Option Json :=
  ((j.get "weather").bind (fun w => w.index 0)).bind (fun w0 => w0.get "main")

/-- Python truthiness of a JSON value. -/
def Json.truthy : Json → Bool
  | .null => false
  | .bool b => b
  | .num q => decide (q ≠ 0)
  | .str s => decide (s ≠ "")
  | .arr xs => !xs.isEmpty
  | .obj fs => !fs.isEmpty

/-- Truthiness of an optional value (`None` is falsy). -/
def truthyOpt : Option Json → Bool
  | none => false
  | some j => j.truthy

/-- Outcome of one `requests.get` call, supplied by an oracle. -/
structure HttpResponse where
  status : Nat
  /-- `some j` when the body parses as JSON `j`; `none` when
  `response.json()` would raise. -/
  jsonBody : Option Json

inductive HttpResult where
  | exn (msg : String)
  | resp (r : HttpResponse)

/-- The call ends in a `requests.RequestException`: the GET itself raised,
`raise_for_status` raised (`400 ≤ status`), or `response.json()` raised. -/
def HttpResult.failsAsRequestError : HttpResult → Prop
  | .exn _ => True
  | .resp r => 400 ≤ r.status ∨ r.jsonBody = none

instance (o : HttpResult) : Decidable o.failsAsRequestError :=
  match o with
  | .exn _ => isTrue trivial
  | .resp r =>
      match h : r.jsonBody with
      | none => isTrue (Or.inr h)
      | some _ =>
          if hs : 400 ≤ r.status then isTrue (Or.inl hs)
          else isFalse (by
            simp only [HttpResult.failsAsRequestError, h]
            exact fun hc => hc.elim hs (by simp))

/-- Process environment, `os.getenv`. -/
def Env : Type := String → Option String

/-- Observable events of a run. -/
inductive Event where
  | httpGet (url : String) (appid : String) (city : String)
  | stWarning (msg : String)
  | stError (msg : String)
  | stStop
  | subheaderShown (title : String)
  | metricShown (label : String)
  | chartShown (title : String)
  | downloadOffered (fileName : String)
  | printed (msg : String)
  | savedPNG (fileName : String)
  | savedCSV (fileName : String)
  | plotWindowShown
  deriving DecidableEq

/-- Result of a Streamlit code path: a value, or `st.stop()` was hit. -/
inductive StResult (α : Type) where
  | ok (val : α)
  | stopped

namespace Weatherproject

def BASE_URL : String := "https://api.openweathermap.org/data/2.5/weather"
def FORECAST_URL : String := "https://api.openweathermap.org/data/2.5/forecast"
def CACHE_TTL : Nat := 600

def apiKeyErrorMsg : String :=
  "API key not configured. Please set OPENWEATHER_API_KEY in your .env file"

def cityNotFoundMsg : String := "City not found. Please check the name."

/-- Exception text of `raise_for_status` (model artifact; no claim
depends on the wording). -/
def httpErrorText (status : Nat) : String := "HTTP error " ++ toString status

def jsonDecodeErrorText : String := "JSON decode error"

/-- `get_api_key`: read `OPENWEATHER_API_KEY`; on a missing or empty
value show an error and `st.stop()`. -/
def get_api_key (env : Env) : List Event × StResult String :=
  match env "OPENWEATHER_API_KEY" with
  | none => ([.stError apiKeyErrorMsg, .stStop], .stopped)
  | some k =>
      if k = "" then ([.stError apiKeyErrorMsg, .stStop], .stopped)
      else ([], .ok k)

/-- `fetch_weather_data` (decorated with `@st.cache_data(ttl=CACHE_TTL)`):
GET the current-weather endpoint; on HTTP 404 warn and return `None`; on
any other exception show an error and `st.stop()`; otherwise return the
parsed JSON body. -/
def fetch_weather_data (env : Env) (o : HttpResult) (city : String) :
    List Event × StResult (Option Json) :=
  match get_api_key env with
  | (evs, .stopped) => (evs, .stopped)
  | (evs, .ok apiKey) =>
      match o with
      | .exn m =>
          (evs ++ [.httpGet BASE_URL apiKey city,
            .stError ("⚠️ An unexpected error occurred: " ++ m), .stStop], .stopped)
      | .resp r =>
          if r.status = 404 then
            (evs ++ [.httpGet BASE_URL apiKey city, .stWarning cityNotFoundMsg], .ok none)
          else if 400 ≤ r.status then
            (evs ++ [.httpGet BASE_URL apiKey city,
              .stError ("⚠️ An unexpected error occurred: " ++ httpErrorText r.status),
              .stStop], .stopped)
          else
            match r.jsonBody with
            | some j => (evs ++ [.httpGet BASE_URL apiKey city], .ok (some j))
            | none =>
                (evs ++ [.httpGet BASE_URL apiKey city,
                  .stError ("⚠️ An unexpected error occurred: " ++ jsonDecodeErrorText),
                  .stStop], .stopped)

/-- `fetch_forecast_data` (decorated with `@st.cache_data(ttl=CACHE_TTL)`):
GET the forecast endpoint; on any exception warn and return `None`;
otherwise return the parsed JSON body. -/
def fetch_forecast_data (env : Env) (o : HttpResult) (city : String) :
    List Event × StResult (Option Json) :=
  match get_api_key env with
  | (evs, .stopped) => (evs, .stopped)
  | (evs, .ok apiKey) =>
      match o with
      | .exn m =>
          (evs ++ [.httpGet FORECAST_URL apiKey city,
            .stWarning ("Couldn\x27t fetch forecast data: " ++ m)], .ok none)
      | .resp r =>
          if 400 ≤ r.status then
            (evs ++ [.httpGet FORECAST_URL apiKey city,
              .stWarning ("Couldn\x27t fetch forecast data: " ++ httpErrorText r.status)],
             .ok none)
          else
            match r.jsonBody with
            | some j => (evs ++ [.httpGet FORECAST_URL apiKey city], .ok (some j))
            | none =>
                (evs ++ [.httpGet FORECAST_URL apiKey city,
                  .stWarning ("Couldn\x27t fetch forecast data: " ++ jsonDecodeErrorText)],
                 .ok none)

end Weatherproject

namespace Whetherproject

def CURRENT_URL : String := "http://api.openweathermap.org/data/2.5/weather"
def FORECAST_URL : String := "http://api.openweathermap.org/data/2.5/forecast"

/-- The string interpolated for `{API_KEY}` in the request URL: the
environment value, or the literal `"None"` when the variable is unset
(Python f-string of `None`). -/
def apiKeyString (env : Env) : String :=
  match env "OPENWEATHER_API_KEY" with
  | none => "None"
  | some k => k

def fetchErrorPrints (m : String) : List Event :=
  [.printed ("ERROR: Failed to fetch data " ++ m),
   .printed "Troubleshooting Tips:",
   .printed "   1. Check if your API key is valid.",
   .printed "   2. Ensure you have an active internet connection.",
   .printed "   3. Try using a different city name."]

/-- `get_weather_data`: two sequential GETs (current weather, then
forecast); on any `requests.RequestException` print an error with
troubleshooting tips and return `(None, None)`; otherwise return both
parsed JSON bodies. -/
def get_weather_data (env : Env) (city : String) (oCur oFc : HttpResult) :
    List Event × (Option Json × Option Json) :=
  let key := apiKeyString env
  let evs0 : List Event := [.printed ("Fetching weather data for " ++ city)]
  match oCur with
  | .exn m =>
      (evs0 ++ [.httpGet CURRENT_URL key city] ++ fetchErrorPrints m, (none, none))
  | .resp r =>
      if 400 ≤ r.status then
        (evs0 ++ [.httpGet CURRENT_URL key city]
          ++ fetchErrorPrints (Weatherproject.httpErrorText r.status), (none, none))
      else
        match r.jsonBody with
        | none =>
            (evs0 ++ [.httpGet CURRENT_URL key city]
              ++ fetchErrorPrints Weatherproject.jsonDecodeErrorText, (none, none))
        | some cur =>
            match oFc with
            | .exn m =>
                (evs0 ++ [.httpGet CURRENT_URL key city, .httpGet FORECAST_URL key city]
                  ++ fetchErrorPrints m, (none, none))
            | .resp r2 =>
                if 400 ≤ r2.status then
                  (evs0 ++ [.httpGet CURRENT_URL key city, .httpGet FORECAST_URL key city]
                    ++ fetchErrorPrints (Weatherproject.httpErrorText r2.status), (none, none))
                else
                  match r2.jsonBody with
                  | none =>
                      (evs0 ++ [.httpGet CURRENT_URL key city, .httpGet FORECAST_URL key city]
                        ++ fetchErrorPrints Weatherproject.jsonDecodeErrorText, (none, none))
                  | some fc =>
                      (evs0 ++ [.httpGet CURRENT_URL key city, .httpGet FORECAST_URL key city,
                        .printed "Data fetched successfully."], (some cur, some fc))

end Whetherproject

namespace Whetherproject

/-- One DataFrame row, as the ordered key/value pairs of the dict
literal that builds it in the source. -/
def Row : Type := List (String × Json)

/-- Assemble a dict-literal row: every field lookup must succeed,
mirroring the `KeyError`/`TypeError` a missing field raises. -/
def seqFields : List (String × Option Json) → Option Row
  | [] => some []
  | (_, none) :: _ => none
  | (k, some v) :: rest =>
      match seqFields rest with
      | some r => some ((k, v) :: r)
      | none => none

/-- The row of `current_df` in `process_data`; `none` models the
`KeyError`/`TypeError` caught by its `except` clause.
`ft` is `datetime.fromtimestamp`. -/
def currentRow (ft : ℚ → ℚ) (current : Json) : Option Row :=
  seqFields
    [("City", current.get "name"),
     ("Temperature", current.getPath ["main", "temp"]),
     ("Feels_Like", current.getPath ["main", "feels_like"]),
     ("Humidity", current.getPath ["main", "humidity"]),
     ("Wind_Speed", current.getPath ["wind", "speed"]),
     ("Conditions", weatherMainOf current),
     ("Timestamp", ((current.get "dt").bind Json.asNum).map (fun q => Json.num (ft q)))]

/-- One appended dict of the forecast loop in `process_data`. -/
def forecastRow (ft : ℚ → ℚ) (entry : Json) : Option Row :=
  seqFields
    [("DateTime", ((entry.get "dt").bind Json.asNum).map (fun q => Json.num (ft q))),
     ("Temperature", entry.getPath ["main", "temp"]),
     ("Humidity", entry.getPath ["main", "humidity"]),
     ("Wind_Speed", entry.getPath ["wind", "speed"]),
     ("Conditions", weatherMainOf entry)]

/-- The forecast loop: one row per entry, aborting the whole
`process_data` call when any entry raises. -/
def buildForecastRows (ft : ℚ → ℚ) : List Json → Option (List Row)
  | [] => some []
  | e :: es =>
      match forecastRow ft e, buildForecastRows ft es with
      | some r, some rs => some (r :: rs)
      | _, _ => none

/-- `process_data`: the current-weather row and one forecast row per
entry of `forecast['list'][:40]`; `none` models the `except` clause
returning `(None, None)`. -/
def process_data (ft : ℚ → ℚ) (current forecast : Json) : Option (Row × List Row) :=
  match currentRow ft current with
  | none => none
  | some c =>
      match (forecast.get "list").bind Json.asArr with
      | none => none
      | some lst =>
          match buildForecastRows ft (lst.take 40) with
          | none => none
          | some rows => some (c, rows)

/-- `create_visualizations`: renders the 2x2 dashboard and saves the PNG;
its `except` clause fires when the forecast DataFrame is empty (no
`DateTime` column to plot).  Plotting-library/file-system failures on
well-formed data are outside the model. -/
def create_visualizations (currentDf : Row) (forecastDf : List Row) :
    List Event × Bool :=
  if forecastDf.isEmpty then
    ([.printed "ERROR: Visualization failed"], false)
  else
    ([.savedPNG "weather_dashboard.png",
      .printed "Dashboard saved as weather_dashboard.png.",
      .plotWindowShown], true)

/-- Which pipeline steps a run executed (control-flow instrumentation of
the model: each flag is set exactly where the source invokes the step). -/
structure Steps where
  fetchSucceeded : Bool
  transformRan : Bool
  transformSucceeded : Bool
  renderRan : Bool
  persistRan : Bool
  deriving DecidableEq

/-- The `__main__` block: fetch, then (guarded) transform, then (guarded)
render, then persist. -/
def main (env : Env) (city : String) (oCur oFc : HttpResult) (ft : ℚ → ℚ) :
    List Event × Steps :=
  let banner : List Event := [.printed "=== Weather Dashboard Program ==="]
  let fetched := get_weather_data env city oCur oFc
  let done : List Event := [.printed "Program completed. Check your files and visualizations."]
  match fetched with
  | (fevs, (some cur, some fc)) =>
      if cur.truthy && fc.truthy then
        match process_data ft cur fc with
        | some (cdf, fdf) =>
            let rendered := create_visualizations cdf fdf
            (banner ++ fevs ++ rendered.1
              ++ [.savedCSV "current_weather.csv", .savedCSV "weather_forecast.csv",
                  .printed "Data saved as current_weather.csv and weather_forecast.csv."]
              ++ done,
             ⟨true, true, true, true, true⟩)
        | none =>
            (banner ++ fevs ++ [.printed "ERROR: Data processing failed"] ++ done,
             ⟨true, true, false, false, false⟩)
      else
        (banner ++ fevs ++ done, ⟨true, false, false, false, false⟩)
  | (fevs, (some _, none)) => (banner ++ fevs ++ done, ⟨false, false, false, false, false⟩)
  | (fevs, (none, some _)) => (banner ++ fevs ++ done, ⟨false, false, false, false, false⟩)
  | (fevs, (none, none)) => (banner ++ fevs ++ done, ⟨false, false, false, false, false⟩)

end Whetherproject

namespace Weatherproject

/-- The fields of one forecast-list entry that `display_forecast` reads. -/
structure FEntry where
  dt : ℚ
  temp : ℚ
  cond : String
  deriving DecidableEq

/-- The reads `item['dt']`, `item['main']['temp']`,
`item['weather'][0]['main']` performed on each entry; `none` models the
uncaught exception a malformed entry raises inside `display_forecast`. -/
def parseFEntry (j : Json) : Option FEntry :=
  match (j.get "dt").bind Json.asNum,
      (j.getPath ["main", "temp"]).bind Json.asNum,
      (weatherMainOf j).bind Json.asStr with
  | some dt, some temp, some cond => some ⟨dt, temp, cond⟩
  | _, _, _ => none

def parseFEntries : List Json → Option (List FEntry)
  | [] => some []
  | j :: js =>
      match parseFEntry j, parseFEntries js with
      | some e, some es => some (e :: es)
      | _, _ => none

/-- `forecast_days.setdefault(date, []).append(item)`: append `e` to the
bucket keyed `d`, creating the bucket at the end when absent
(dict insertion order). -/
def insertEntry (acc : List (String × List FEntry)) (d : String) (e : FEntry) :
    List (String × List FEntry) :=
  match acc with
  | [] => [(d, [e])]
  | (k, es) :: rest =>
      if k = d then (k, es ++ [e]) :: rest else (k, es) :: insertEntry rest d e

/-- The grouping loop of `display_forecast`: partition entries by the
calendar date of their `dt` timestamp (`dateOf` is
`datetime.fromtimestamp(..).strftime(date)` of the local timezone). -/
def groupByDate (dateOf : ℚ → String) (entries : List FEntry) :
    List (String × List FEntry) :=
  entries.foldl (fun acc e => insertEntry acc (dateOf e.dt) e) []

/-- `sum(item['main']['temp'] for item in day_data) / len(day_data)`. -/
def avgTemp (es : List FEntry) : ℚ := (es.map FEntry.temp).sum / es.length

/-- `[item['weather'][0]['main'].lower() for item in day_data]`;
`lower` is Python's Unicode-aware `str.lower`, a platform oracle. -/
def conditionsOf (lower : String → String) (es : List FEntry) : List String :=
  es.map (fun e => lower e.cond)

/-- `max(set(conditions), key=conditions.count)`: scan the distinct
conditions keeping the one with the strictly larger count.  (CPython
iterates the set in hash order; any iteration order yields an element of
maximal count, which is all the development relies on.) -/
def mostCommon (l : List String) : String :=
  match l.dedup with
  | [] => ""
  | c :: cs => cs.foldl (fun best c2 => if l.count best < l.count c2 then c2 else best) c

/-- `display_forecast`: per date bucket, the displayed metric
(date key, mean temperature, most frequent condition).  `some []` is the
early `return` on falsy input; `none` is an uncaught exception
(malformed entry, or `st.columns(0)` when the list is empty). -/
def display_forecast (dateOf : ℚ → String) (lower : String → String)
    (fd : Option Json) : Option (List (String × ℚ × String)) :=
  if truthyOpt fd then
    match fd with
    | none => some []
    | some f =>
        match (f.get "list").bind Json.asArr with
        | none => none
        | some lst =>
            match parseFEntries lst with
            | none => none
            | some es =>
                let buckets := groupByDate dateOf es
                if buckets.isEmpty then none
                else
                  some (buckets.map fun b =>
                    (b.1, avgTemp b.2, mostCommon (conditionsOf lower b.2)))
  else some []

/-- `data.get('sys', {})`. -/
def sysOf (d : Json) : Json := (d.get "sys").getD (.obj [])

/-- The reads `display_weather_card` performs that raise on malformed
data: required dict/list accesses, `.lower()`/`.title()` on the
condition and description (must be strings), `:.1f` formatting of the
temperatures, division of `visibility` and `fromtimestamp` of
`sunrise`/`sunset` (must be numbers).  Fields read with
`.get(..., default)` in the source need not be present. -/
def cardReads (d : Json) : List (Option Unit) :=
  [((d.get "weather").bind (fun w => w.index 0)).map (fun _ => ()),
   (d.get "main").map (fun _ => ()),
   (d.get "wind").map (fun _ => ()),
   ((weatherMainOf d).bind Json.asStr).map (fun _ => ()),
   (d.get "name").map (fun _ => ()),
   (((d.get "weather").bind (fun w => w.index 0)).bind
     (fun w0 => (w0.get "description").bind Json.asStr)).map (fun _ => ()),
   ((d.getPath ["main", "temp"]).bind Json.asNum).map (fun _ => ()),
   ((d.getPath ["main", "feels_like"]).bind Json.asNum).map (fun _ => ()),
   (d.getPath ["main", "humidity"]).map (fun _ => ()),
   (d.getPath ["main", "pressure"]).map (fun _ => ()),
   (((d.get "visibility").getD (.num 0)).asNum).map (fun _ => ()),
   (d.getPath ["wind", "speed"]).map (fun _ => ()),
   (((sysOf d).get "sunrise").bind Json.asNum).map (fun _ => ()),
   (((sysOf d).get "sunset").bind Json.asNum).map (fun _ => ())]

/-- `display_weather_card`: the metric labels the card shows.  `none` is
an uncaught exception on malformed data; `some []` is the early `return`
on falsy input. -/
def display_weather_card (data : Option Json) : Option (List Event) :=
  match data with
  | none => some []
  | some d =>
      if d.truthy then
        if (cardReads d).all Option.isSome then
          some [.subheaderShown "Current Weather",
                .metricShown "Description", .metricShown "Temperature",
                .metricShown "Feels Like", .metricShown "Humidity",
                .metricShown "Pressure", .metricShown "Visibility",
                .metricShown "Wind Speed", .metricShown "Wind Direction",
                .metricShown "Sunrise/Sunset"]
        else none
      else some []

/-- The mock-history DataFrame, column by column. -/
structure MockHistory where
  dates : List Int
  temps : List ℚ
  hums : List ℚ
  precs : List ℚ
  deriving DecidableEq

/-- `generate_mock_history`.  `today` is `datetime.date.today()` as a day
number; `round1` is Python's `round(·, 1)`; `uniT`/`uniP` are the
`random.uniform` draws of the temperature/precipitation comprehensions
and `rintH` the `random.randint(-15, 15)` draws of the humidity one. -/
def generate_mock_history (today : Int) (round1 : ℚ → ℚ)
    (uniT : Nat → ℚ) (rintH : Nat → Int) (uniP : Nat → ℚ)
    (base_temp base_humidity : ℚ) : MockHistory :=
  let offsets : List Int := [4, 3, 2, 1, 0]
  let dates := offsets.map (fun i => today - i)
  { dates := dates
    temps := (List.range dates.length).map (fun k => round1 (base_temp + uniT k))
    hums := (List.range dates.length).map
      (fun k => max 30 (min 100 (base_humidity + (rintH k : ℚ))))
    precs := (List.range dates.length).map (fun k => round1 (uniP k)) }

/-- `create_visualizations`: the three Plotly charts of the tabs. -/
def create_visualizations (_df : MockHistory) : List Event :=
  [.chartShown "Temperature Trends", .chartShown "Humidity Trends",
   .chartShown "Precipitation (Last 5 Days)"]

/-- Platform oracles and per-run inputs of the interactive app. -/
structure Ctx where
  env : Env
  /-- `str.isalpha` (Unicode tables). -/
  pyIsAlpha : Char → Bool
  /-- `str.isspace`. -/
  pyIsSpace : Char → Bool
  /-- `str.strip`. -/
  pyStrip : String → String
  /-- outcome of the current-weather GET. -/
  oW : HttpResult
  /-- outcome of the forecast GET. -/
  oF : HttpResult
  /-- `datetime.fromtimestamp(..).strftime(date)`. -/
  dateOf : ℚ → String
  /-- `str.lower` (Unicode tables). -/
  pyLower : String → String
  /-- `datetime.date.today()` as a day number. -/
  today : Int
  round1 : ℚ → ℚ
  uniT : Nat → ℚ
  rintH : Nat → Int
  uniP : Nat → ℚ

def invalidCityMsg : String :=
  "❌ Invalid city name. Please use only letters, spaces, hyphens, or apostrophes."

def emptyCityMsg : String := "⚠️ Please enter a city name"

/-- `all(c.isalpha() or c.isspace() or c in "-\x27,." for c in city)`. -/
def validChars (ctx : Ctx) (city : String) : Bool :=
  city.data.all (fun c => ctx.pyIsAlpha c || ctx.pyIsSpace c || ("-\x27,.".data.contains c))

/-- The `if forecast_data:` block of `main`. -/
def forecastSection (dateOf : ℚ → String) (lower : String → String)
    (fd : Option Json) : Option (List Event) :=
  if truthyOpt fd then
    match display_forecast dateOf lower fd with
    | none => none
    | some ms =>
        some ([.subheaderShown "📅 5-Day Forecast"]
          ++ ms.map (fun m => Event.metricShown m.1))
  else some []

/-- `weather_data['main']['temp']` and `weather_data['main']['humidity']`
as passed to `generate_mock_history`; a non-numeric value raises in the
arithmetic of the mock columns. -/
def mockBase : Option Json → Option (ℚ × ℚ)
  | none => none
  | some w =>
      match (w.getPath ["main", "temp"]).bind Json.asNum,
          (w.getPath ["main", "humidity"]).bind Json.asNum with
      | some t, some h => some (t, h)
      | _, _ => none

/-- Which pipeline steps a run executed (control-flow instrumentation of
the model: each flag is set exactly where the source invokes the step;
"transform" is the mock-history reshaping step). -/
structure Steps where
  fetchSucceeded : Bool
  transformRan : Bool
  transformSucceeded : Bool
  renderRan : Bool
  persistRan : Bool
  deriving DecidableEq

def noSteps : Steps := ⟨false, false, false, false, false⟩

/-- The weather-processing branch of `main` (the widget callbacks and
sidebar are layout only).  Result: `none` for an uncaught exception,
otherwise the event trace, the final `st.session_state.city`, and the
executed steps. -/
def main (ctx : Ctx) (rawInput sessionCity : String) (buttonPressed : Bool) :
    Option (List Event × String × Steps) :=
  let city := ctx.pyStrip rawInput
  if buttonPressed || city != sessionCity then
    if city = "" then
      some ([.stWarning emptyCityMsg, .stStop], sessionCity, noSteps)
    else if !(validChars ctx city) then
      some ([.stError invalidCityMsg, .stStop], sessionCity, noSteps)
    else
      match fetch_weather_data ctx.env ctx.oW city with
      | (evs, .stopped) => some (evs, sessionCity, noSteps)
      | (evs, .ok wd) =>
          match fetch_forecast_data ctx.env ctx.oF city with
          | (fevs, .stopped) => some (evs ++ fevs, sessionCity, noSteps)
          | (fevs, .ok fd) =>
              if truthyOpt wd then
                match display_weather_card wd with
                | none => none
                | some cardEvs =>
                    match forecastSection ctx.dateOf ctx.pyLower fd with
                    | none => none
                    | some fcEvs =>
                        match mockBase wd with
                        | none => none
                        | some (bt, bh) =>
                            let mock := generate_mock_history ctx.today ctx.round1
                              ctx.uniT ctx.rintH ctx.uniP bt bh
                            some (evs ++ fevs ++ cardEvs ++ fcEvs
                                ++ [.subheaderShown "📈 Historical Trends"]
                                ++ create_visualizations mock
                                ++ [.downloadOffered (city ++ "_weather_data.csv")],
                              city, ⟨true, true, true, true, true⟩)
              else
                some (evs ++ fevs, sessionCity, noSteps)
  else
    some ([], sessionCity, noSteps)

end Weatherproject

/-- A time-boxed memoization decorator in the source. -/
structure CacheDecoration where
  functionName : String
  ttlSeconds : Nat
  deriving DecidableEq

/-- The `@st.cache_data(ttl=CACHE_TTL)` decorators of
`weatherproject.py`, in source order (lines 49 and 64). -/
def Weatherproject.cacheDecorations : List CacheDecoration :=
  [⟨"fetch_weather_data", Weatherproject.CACHE_TTL⟩,
   ⟨"fetch_forecast_data", Weatherproject.CACHE_TTL⟩]

/-- `whetherproject.py` has no memoization decorator. -/
def Whetherproject.cacheDecorations : List CacheDecoration := []

/-- All caching constructs of the repository. -/
def allCacheDecorations : List CacheDecoration :=
  Weatherproject.cacheDecorations ++ Whetherproject.cacheDecorations

def isRenderEvent : Event → Bool
  | .chartShown _ => true
  | .savedPNG _ => true
  | .plotWindowShown => true
  | _ => false

def isPersistEvent : Event → Bool
  | .downloadOffered _ => true
  | .savedCSV _ => true
  | _ => false

/-- No persisted artifact (CSV offered/written) before a render event. -/
def persistAfterRenderOK : List Event → Bool
  | [] => true
  | e :: es =>
      if isPersistEvent e then false
      else if isRenderEvent e then true
      else persistAfterRenderOK es

/-- Number of HTTP GETs to `url` in a trace. -/
def countGet (t : List Event) (url : String) : Nat :=
  t.countP (fun e => match e with
    | .httpGet u _ _ => u == url
    | _ => false)

/-- Some chart was rendered. -/
def hasChart (t : List Event) : Prop := ∃ title, Event.chartShown title ∈ t

/-- Sample data for concrete witnesses. -/

def sampleEnv : Env := fun s => if s = "OPENWEATHER_API_KEY" then some "testkey" else none

def sampleWeather : Json :=
  .obj [("name", .str "London"),
        ("main", .obj [("temp", .num 10), ("feels_like", .num 9),
                       ("humidity", .num 80), ("pressure", .num 1012)]),
        ("wind", .obj [("speed", .num 3)]),
        ("weather", .arr [.obj [("main", .str "Clouds"),
                                ("description", .str "overcast clouds")]]),
        ("sys", .obj [("sunrise", .num 100), ("sunset", .num 200)]),
        ("visibility", .num 10000),
        ("dt", .num 1000)]

def sampleEntry (dt temp : ℚ) (cond : String) : Json :=
  .obj [("dt", .num dt),
        ("main", .obj [("temp", .num temp), ("humidity", .num 70)]),
        ("wind", .obj [("speed", .num 2)]),
        ("weather", .arr [.obj [("main", .str cond)]])]

def sampleForecast : Json :=
  .obj [("list", .arr [sampleEntry 0 10 "Rain", sampleEntry 10800 20 "Clouds",
                       sampleEntry 100000 30 "Clouds"])]

/-- Day buckets for the sample: entries with `dt < 86400` on day one. -/
def sampleDateOf (q : ℚ) : String := if q < 86400 then "2026-10-12" else "2026-10-13"

def sampleCtx : Weatherproject.Ctx :=
  { env := sampleEnv
    pyIsAlpha := Char.isAlpha
    pyIsSpace := fun c => c = ' '
    pyStrip := fun s => s
    oW := .resp ⟨200, some sampleWeather⟩
    oF := .resp ⟨200, some sampleForecast⟩
    dateOf := sampleDateOf
    pyLower := fun s => s
    today := 20739
    round1 := fun q => q
    uniT := fun _ => 0
    rintH := fun _ => 0
    uniP := fun _ => 0 }

example :
    (Weatherproject.fetch_weather_data (fun _ => some "k")
      (.resp ⟨404, some (.obj [])⟩) "Paris").2 = .ok none := by rfl

example :
    (Whetherproject.get_weather_data (fun _ => none) "Paris" (.exn "boom")
      (.resp ⟨200, some .null⟩)).2 = (none, none) := by rfl

/-! ### Helper lemmas -/

namespace Whetherproject

theorem seqFields_keys : ∀ (ps : List (String × Option Json)) (r : Row),
    seqFields ps = some r → r.map Prod.fst = ps.map Prod.fst := by
  intro ps
  induction ps with
  | nil => intro r h; simp [seqFields] at h; simp [← h]
  | cons p rest ih =>
      intro r h
      obtain ⟨k, v?⟩ := p
      cases v? with
      | none => simp [seqFields] at h
      | some v =>
          cases hr : seqFields rest with
          | none => simp [seqFields, hr] at h
          | some rr =>
              simp [seqFields, hr] at h
              subst h
              simp [ih rr hr]

theorem buildForecastRows_length (ft : ℚ → ℚ) :
    ∀ (l : List Json) (rs : List Row), buildForecastRows ft l = some rs →
      rs.length = l.length := by
  intro l
  induction l with
  | nil => intro rs h; simp [buildForecastRows] at h; simp [← h]
  | cons e es ih =>
      intro rs h
      simp only [buildForecastRows] at h
      cases hr : forecastRow ft e with
      | none => rw [hr] at h; simp at h
      | some r =>
          rw [hr] at h
          cases hrs : buildForecastRows ft es with
          | none => rw [hrs] at h; simp at h
          | some rest =>
              rw [hrs] at h
              simp at h
              subst h
              simp [ih rest hrs]

theorem buildForecastRows_get (ft : ℚ → ℚ) :
    ∀ (l : List Json) (rs : List Row), buildForecastRows ft l = some rs →
      ∀ (i : Nat) (hi : i < l.length) (hr : i < rs.length),
        forecastRow ft (l.get ⟨i, hi⟩) = some (rs.get ⟨i, hr⟩) := by
  intro l
  induction l with
  | nil => intro rs h i hi; simp at hi
  | cons e es ih =>
      intro rs h i hi hr
      simp only [buildForecastRows] at h
      cases he : forecastRow ft e with
      | none => rw [he] at h; simp at h
      | some r =>
          rw [he] at h
          cases hes : buildForecastRows ft es with
          | none => rw [hes] at h; simp at h
          | some rest =>
              rw [hes] at h
              simp at h
              subst h
              cases i with
              | zero => simpa using he
              | succ j =>
                  simp only [List.get_cons_succ]
                  exact ih rest hes j (by simpa using hi) (by simpa using hr)

theorem buildForecastRows_mem (ft : ℚ → ℚ) :
    ∀ (l : List Json) (rs : List Row), buildForecastRows ft l = some rs →
      ∀ row ∈ rs, ∃ e ∈ l, forecastRow ft e = some row := by
  intro l
  induction l with
  | nil => intro rs h row hrow; simp [buildForecastRows] at h; subst h; simp at hrow
  | cons e es ih =>
      intro rs h row hrow
      simp only [buildForecastRows] at h
      cases he : forecastRow ft e with
      | none => rw [he] at h; simp at h
      | some r =>
          rw [he] at h
          cases hes : buildForecastRows ft es with
          | none => rw [hes] at h; simp at h
          | some rest =>
              rw [hes] at h
              simp at h
              subst h
              rcases List.mem_cons.mp hrow with hh | hh
              · exact ⟨e, by simp, by rw [he, hh]⟩
              · obtain ⟨e2, he2, hfe2⟩ := ih rest hes row hh
                exact ⟨e2, by simp [he2], hfe2⟩

/-- Inversion of `process_data`. -/
theorem process_data_inv (ft : ℚ → ℚ) (current forecast : Json)
    (c : Row) (rows : List Row)
    (h : process_data ft current forecast = some (c, rows)) :
    currentRow ft current = some c ∧
      ∃ lst : List Json, forecast.get "list" = some (.arr lst) ∧
        buildForecastRows ft (lst.take 40) = some rows := by
  unfold process_data at h
  split at h
  · simp at h
  rename_i c2 hc
  split at h
  · simp at h
  rename_i lst hx
  split at h
  · simp at h
  rename_i rows2 hb
  simp only [Option.some_inj, Prod.mk.injEq] at h
  obtain ⟨h1, h2⟩ := h
  subst h1; subst h2
  obtain ⟨x, hx1, hx2⟩ := Option.bind_eq_some.mp hx
  cases x with
  | arr xs =>
      simp [Json.asArr] at hx2
      subst hx2
      exact ⟨hc, xs, hx1, hb⟩
  | null => simp [Json.asArr] at hx2
  | bool b => simp [Json.asArr] at hx2
  | num q => simp [Json.asArr] at hx2
  | str s => simp [Json.asArr] at hx2
  | obj fs => simp [Json.asArr] at hx2

end Whetherproject

namespace Whetherproject

/-- Inversion of `forecastRow`: a produced row is exactly the dict
literal of the loop body, with every field read from the entry. -/
theorem forecastRow_inv (ft : ℚ → ℚ) (entry : Json) (row : Row)
    (h : forecastRow ft entry = some row) :
    ∃ dtq t hq w cnd,
      (entry.get "dt").bind Json.asNum = some dtq ∧
      entry.getPath ["main", "temp"] = some t ∧
      entry.getPath ["main", "humidity"] = some hq ∧
      entry.getPath ["wind", "speed"] = some w ∧
      weatherMainOf entry = some cnd ∧
      row = [("DateTime", Json.num (ft dtq)), ("Temperature", t), ("Humidity", hq),
             ("Wind_Speed", w), ("Conditions", cnd)] := by
  unfold forecastRow at h
  cases h1 : (entry.get "dt").bind Json.asNum with
  | none => rw [h1] at h; simp [seqFields] at h
  | some dtq =>
  rw [h1] at h
  cases h2 : entry.getPath ["main", "temp"] with
  | none => rw [h2] at h; simp [seqFields] at h
  | some t =>
  rw [h2] at h
  cases h3 : entry.getPath ["main", "humidity"] with
  | none => rw [h3] at h; simp [seqFields] at h
  | some hq =>
  rw [h3] at h
  cases h4 : entry.getPath ["wind", "speed"] with
  | none => rw [h4] at h; simp [seqFields] at h
  | some w =>
  rw [h4] at h
  cases h5 : weatherMainOf entry with
  | none => rw [h5] at h; simp [seqFields] at h
  | some cnd =>
  rw [h5] at h
  simp [seqFields] at h
  exact ⟨dtq, t, hq, w, cnd, rfl, rfl, rfl, rfl, rfl, h.symm⟩

end Whetherproject

/-- The concrete DataFrame rows `process_data` produces on the sample
inputs (with `fromtimestamp` modelled as the identity). -/
def sampleCurrentRow : Whetherproject.Row :=
  [("City", .str "London"), ("Temperature", .num 10), ("Feels_Like", .num 9),
   ("Humidity", .num 80), ("Wind_Speed", .num 3), ("Conditions", .str "Clouds"),
   ("Timestamp", .num 1000)]

def sampleForecastRows : List Whetherproject.Row :=
  [[("DateTime", .num 0), ("Temperature", .num 10), ("Humidity", .num 70),
    ("Wind_Speed", .num 2), ("Conditions", .str "Rain")],
   [("DateTime", .num 10800), ("Temperature", .num 20), ("Humidity", .num 70),
    ("Wind_Speed", .num 2), ("Conditions", .str "Clouds")],
   [("DateTime", .num 100000), ("Temperature", .num 30), ("Humidity", .num 70),
    ("Wind_Speed", .num 2), ("Conditions", .str "Clouds")]]

example :
    Whetherproject.process_data (fun q => q) sampleWeather sampleForecast =
      some (sampleCurrentRow, sampleForecastRows) := by rfl

/-! ### Claim theorems -/

/-- C3 counterexample: on a well-formed pair of inputs, `process_data`
succeeds and none of the produced forecast rows carries any
pressure field — refuting the claim that every produced row carries
temperature, humidity, wind, and pressure. -/
theorem C3_counterexample :
    (Whetherproject.process_data (fun q => q) sampleWeather sampleForecast).map
        (fun p => p.2.map (fun r => r.map Prod.fst)) =
      some [["DateTime", "Temperature", "Humidity", "Wind_Speed", "Conditions"],
            ["DateTime", "Temperature", "Humidity", "Wind_Speed", "Conditions"],
            ["DateTime", "Temperature", "Humidity", "Wind_Speed", "Conditions"]] ∧
    ("pressure" ∈ (["DateTime", "Temperature", "Humidity", "Wind_Speed", "Conditions"] : List String) → False) ∧
    ("Pressure" ∈ (["DateTime", "Temperature", "Humidity", "Wind_Speed", "Conditions"] : List String) → False) :=
  ⟨by rfl, by decide, by decide⟩

/-- C3 (amended): for every pair of inputs on which `process_data`
succeeds, every produced forecast row carries a timestamp together with
temperature, humidity, and wind-speed fields (and the weather condition)
read from the corresponding JSON entry — but no pressure field. -/
theorem C3_forecast_rows_fields (ft : ℚ → ℚ) (current forecast : Json)
    (c : Whetherproject.Row) (rows : List Whetherproject.Row)
    (h : Whetherproject.process_data ft current forecast = some (c, rows)) :
    ∃ lst : List Json, forecast.get "list" = some (.arr lst) ∧
      ∀ row ∈ rows,
        row.map Prod.fst = ["DateTime", "Temperature", "Humidity", "Wind_Speed", "Conditions"] ∧
        ∃ entry ∈ lst.take 40,
          ∃ dtq t hq w cnd,
            (entry.get "dt").bind Json.asNum = some dtq ∧
            entry.getPath ["main", "temp"] = some t ∧
            entry.getPath ["main", "humidity"] = some hq ∧
            entry.getPath ["wind", "speed"] = some w ∧
            weatherMainOf entry = some cnd ∧
            row = [("DateTime", Json.num (ft dtq)), ("Temperature", t), ("Humidity", hq),
                   ("Wind_Speed", w), ("Conditions", cnd)] := by
  obtain ⟨hc, lst, hl, hb⟩ := Whetherproject.process_data_inv ft current forecast c rows h
  refine ⟨lst, hl, ?_⟩
  intro row hrow
  obtain ⟨e, he, hfe⟩ := Whetherproject.buildForecastRows_mem ft _ _ hb row hrow
  obtain ⟨dtq, t, hq, w, cnd, i1, i2, i3, i4, i5, i6⟩ :=
    Whetherproject.forecastRow_inv ft e row hfe
  constructor
  · rw [i6]; rfl
  · exact ⟨e, he, dtq, t, hq, w, cnd, i1, i2, i3, i4, i5, i6⟩

/-- C3 witness: the amended theorem applied at the sample inputs. -/
theorem C3_witness :
    ∃ lst : List Json, sampleForecast.get "list" = some (.arr lst) ∧
      ∀ row ∈ sampleForecastRows,
        row.map Prod.fst = ["DateTime", "Temperature", "Humidity", "Wind_Speed", "Conditions"] ∧
        ∃ entry ∈ lst.take 40,
          ∃ dtq t hq w cnd,
            (entry.get "dt").bind Json.asNum = some dtq ∧
            entry.getPath ["main", "temp"] = some t ∧
            entry.getPath ["main", "humidity"] = some hq ∧
            entry.getPath ["wind", "speed"] = some w ∧
            weatherMainOf entry = some cnd ∧
            row = [("DateTime", Json.num ((fun q => q) dtq)), ("Temperature", t), ("Humidity", hq),
                   ("Wind_Speed", w), ("Conditions", cnd)] :=
  C3_forecast_rows_fields (fun q => q) sampleWeather sampleForecast
    sampleCurrentRow sampleForecastRows (by rfl)

/-- C9: `process_data` builds the forecast table from at most the first
40 entries of `forecast['list']`, one row per consumed entry, in input
order; with 40 or fewer entries the row count equals the list length. -/
theorem C9_forecast_first40 (ft : ℚ → ℚ) (current forecast : Json)
    (c : Whetherproject.Row) (rows : List Whetherproject.Row)
    (h : Whetherproject.process_data ft current forecast = some (c, rows)) :
    ∃ lst : List Json, forecast.get "list" = some (.arr lst) ∧
      rows.length = min 40 lst.length ∧
      ∀ (i : Nat) (hi : i < lst.length) (hr : i < rows.length), i < 40 →
        Whetherproject.forecastRow ft (lst.get ⟨i, hi⟩) = some (rows.get ⟨i, hr⟩) := by
  obtain ⟨hc, lst, hl, hb⟩ := Whetherproject.process_data_inv ft current forecast c rows h
  have hlen : rows.length = (lst.take 40).length :=
    Whetherproject.buildForecastRows_length ft _ _ hb
  refine ⟨lst, hl, by simpa using hlen, ?_⟩
  intro i hi hr h40
  have hi40 : i < (lst.take 40).length := by
    simp [List.length_take]
    exact ⟨h40, hi⟩
  have := Whetherproject.buildForecastRows_get ft _ _ hb i hi40 hr
  have htake : (lst.take 40).get ⟨i, hi40⟩ = lst.get ⟨i, hi⟩ := by
    simp [List.get_eq_getElem, List.getElem_take]
  rwa [htake] at this

/-- C9 witness: the theorem applied at the sample inputs (3 entries:
all consumed, row count 3 = min 40 3). -/
theorem C9_witness :
    ∃ lst : List Json, sampleForecast.get "list" = some (.arr lst) ∧
      sampleForecastRows.length = min 40 lst.length ∧
      ∀ (i : Nat) (hi : i < lst.length) (hr : i < sampleForecastRows.length), i < 40 →
        Whetherproject.forecastRow (fun q => q) (lst.get ⟨i, hi⟩) =
          some (sampleForecastRows.get ⟨i, hr⟩) :=
  C9_forecast_first40 (fun q => q) sampleWeather sampleForecast
    sampleCurrentRow sampleForecastRows (by rfl)

/-- C8: `generate_mock_history` returns a 5-row table whose dates are the
5 consecutive days ending today in ascending order, and every humidity
value is clamped into [30, 100] regardless of `base_humidity`. -/
theorem C8_mock_history (today : Int) (round1 : ℚ → ℚ) (uniT : Nat → ℚ)
    (rintH : Nat → Int) (uniP : Nat → ℚ) (base_temp base_humidity : ℚ) :
    (Weatherproject.generate_mock_history today round1 uniT rintH uniP
        base_temp base_humidity).dates =
      [today - 4, today - 3, today - 2, today - 1, today] ∧
    (Weatherproject.generate_mock_history today round1 uniT rintH uniP
        base_temp base_humidity).temps.length = 5 ∧
    (Weatherproject.generate_mock_history today round1 uniT rintH uniP
        base_temp base_humidity).hums.length = 5 ∧
    (Weatherproject.generate_mock_history today round1 uniT rintH uniP
        base_temp base_humidity).precs.length = 5 ∧
    ∀ h ∈ (Weatherproject.generate_mock_history today round1 uniT rintH uniP
        base_temp base_humidity).hums, 30 ≤ h ∧ h ≤ 100 := by
  refine ⟨?_, ?_, ?_, ?_, ?_⟩
  · simp [Weatherproject.generate_mock_history]
  · simp [Weatherproject.generate_mock_history]
  · simp [Weatherproject.generate_mock_history]
  · simp [Weatherproject.generate_mock_history]
  · intro h hh
    simp [Weatherproject.generate_mock_history, List.mem_map] at hh
    obtain ⟨k, _, hk⟩ := hh
    subst hk
    constructor
    · exact le_max_left _ _
    · exact max_le (by norm_num) (min_le_left _ _)

/-- C6 counterexample: two functions (both fetchers of the interactive
variant) carry the TTL memoization decorator, not exactly one. -/
theorem C6_counterexample :
    allCacheDecorations.length = 2 ∧ allCacheDecorations.length ≠ 1 := by decide

/-- C6 (amended): caching across the repository is limited to the
TTL-boxed `st.cache_data` decorator on exactly the two fetch functions of
the interactive variant, both with the same 600-second TTL; the batch
variant has no caching at all. -/
theorem C6_cache_registry :
    allCacheDecorations =
      [⟨"fetch_weather_data", 600⟩, ⟨"fetch_forecast_data", 600⟩] ∧
    Whetherproject.cacheDecorations = [] ∧
    Weatherproject.CACHE_TTL = 600 ∧
    allCacheDecorations.all
      (fun d => d.ttlSeconds == Weatherproject.CACHE_TTL) = true := by decide

/-- C1: for every city, each fetch operation either returns the parsed
JSON of the HTTP response or signals failure by returning `None` /
stopping: `fetch_weather_data` returns `None` on HTTP 404 and stops on
any other exception; `fetch_forecast_data` returns `None` on any
exception; `get_weather_data` returns `(None, None)` on any
`requests.RequestException`; no fetch operation returns a non-JSON
success value or continues past an unhandled error. -/
theorem C1_fetch_error_contract :
    (∀ (env : Env) (o : HttpResult) (city : String),
        (Weatherproject.fetch_weather_data env o city).2 = .stopped ∨
        (Weatherproject.fetch_weather_data env o city).2 = .ok none ∨
        ∃ r j, o = .resp r ∧ r.jsonBody = some j ∧
          (Weatherproject.fetch_weather_data env o city).2 = .ok (some j)) ∧
    (∀ (env : Env) (m city : String),
        (Weatherproject.fetch_weather_data env (.exn m) city).2 = .stopped) ∧
    (∀ (env : Env) (r : HttpResponse) (city k : String),
        env "OPENWEATHER_API_KEY" = some k → k ≠ "" → r.status = 404 →
        (Weatherproject.fetch_weather_data env (.resp r) city).2 = .ok none) ∧
    (∀ (env : Env) (r : HttpResponse) (city k : String),
        env "OPENWEATHER_API_KEY" = some k → k ≠ "" → r.status ≠ 404 →
        (400 ≤ r.status ∨ r.jsonBody = none) →
        (Weatherproject.fetch_weather_data env (.resp r) city).2 = .stopped) ∧
    (∀ (env : Env) (o : HttpResult) (city : String),
        (Weatherproject.fetch_forecast_data env o city).2 = .stopped ∨
        (Weatherproject.fetch_forecast_data env o city).2 = .ok none ∨
        ∃ r j, o = .resp r ∧ r.jsonBody = some j ∧
          (Weatherproject.fetch_forecast_data env o city).2 = .ok (some j)) ∧
    (∀ (env : Env) (o : HttpResult) (city k : String),
        env "OPENWEATHER_API_KEY" = some k → k ≠ "" → o.failsAsRequestError →
        (Weatherproject.fetch_forecast_data env o city).2 = .ok none) ∧
    (∀ (env : Env) (city : String) (oCur oFc : HttpResult),
        oCur.failsAsRequestError ∨ oFc.failsAsRequestError →
        (Whetherproject.get_weather_data env city oCur oFc).2 = (none, none)) ∧
    (∀ (env : Env) (city : String) (oCur oFc : HttpResult),
        (Whetherproject.get_weather_data env city oCur oFc).2 = (none, none) ∨
        ∃ r1 r2 cur fc, oCur = .resp r1 ∧ r1.jsonBody = some cur ∧
          oFc = .resp r2 ∧ r2.jsonBody = some fc ∧
          (Whetherproject.get_weather_data env city oCur oFc).2 =
            (some cur, some fc)) := by
  refine ⟨?_, ?_, ?_, ?_, ?_, ?_, ?_, ?_⟩
  · intro env o city
    unfold Weatherproject.fetch_weather_data Weatherproject.get_api_key
    rcases he : env "OPENWEATHER_API_KEY" with _ | k
    · simp
    · by_cases hk : k = ""
      · simp [hk]
      · simp only [hk, if_false]
        cases o with
        | exn m => simp
        | resp r =>
            by_cases h404 : r.status = 404
            · simp [h404]
            · by_cases hge : 400 ≤ r.status
              · simp [h404, hge]
              · cases hb : r.jsonBody with
                | none => simp [h404, hge, hb]
                | some j => simp [h404, hge, hb]
  · intro env m city
    unfold Weatherproject.fetch_weather_data Weatherproject.get_api_key
    rcases he : env "OPENWEATHER_API_KEY" with _ | k
    · simp
    · by_cases hk : k = "" <;> simp [hk]
  · intro env r city k hk hne h404
    unfold Weatherproject.fetch_weather_data Weatherproject.get_api_key
    simp [hk, hne, h404]
  · intro env r city k hk hne h404 herr
    unfold Weatherproject.fetch_weather_data Weatherproject.get_api_key
    rcases herr with hge | hb
    · simp [hk, hne, h404, hge]
    · by_cases hge : 400 ≤ r.status
      · simp [hk, hne, h404, hge]
      · simp [hk, hne, h404, hge, hb]
  · intro env o city
    unfold Weatherproject.fetch_forecast_data Weatherproject.get_api_key
    rcases he : env "OPENWEATHER_API_KEY" with _ | k
    · simp
    · by_cases hk : k = ""
      · simp [hk]
      · simp only [hk, if_false]
        cases o with
        | exn m => simp
        | resp r =>
            by_cases hge : 400 ≤ r.status
            · simp [hge]
            · cases hb : r.jsonBody with
              | none => simp [hge, hb]
              | some j => simp [hge, hb]
  · intro env o city k hk hne herr
    unfold Weatherproject.fetch_forecast_data Weatherproject.get_api_key
    cases o with
    | exn m => simp [hk, hne]
    | resp r =>
        rcases herr with hge | hb
        · simp [hk, hne, hge]
        · by_cases hge : 400 ≤ r.status
          · simp [hk, hne, hge]
          · simp [hk, hne, hge, hb]
  · intro env city oCur oFc herr
    unfold Whetherproject.get_weather_data
    cases oCur with
    | exn m => simp
    | resp r1 =>
        by_cases hge1 : 400 ≤ r1.status
        · simp [hge1]
        · cases hb1 : r1.jsonBody with
          | none => simp [hge1, hb1]
          | some cur =>
              have h2 : oFc.failsAsRequestError := by
                rcases herr with h | h
                · exact absurd h (by simp [HttpResult.failsAsRequestError, hge1, hb1])
                · exact h
              cases oFc with
              | exn m => simp [hge1, hb1]
              | resp r2 =>
                  rcases h2 with hge2 | hb2
                  · simp [hge1, hb1, hge2]
                  · by_cases hge2 : 400 ≤ r2.status
                    · simp [hge1, hb1, hge2]
                    · simp [hge1, hb1, hge2, hb2]
  · intro env city oCur oFc
    unfold Whetherproject.get_weather_data
    cases oCur with
    | exn m => simp
    | resp r1 =>
        by_cases hge1 : 400 ≤ r1.status
        · simp [hge1]
        · cases hb1 : r1.jsonBody with
          | none => simp [hge1, hb1]
          | some cur =>
              cases oFc with
              | exn m => simp [hge1, hb1]
              | resp r2 =>
                  by_cases hge2 : 400 ≤ r2.status
                  · simp [hge1, hb1, hge2]
                  · cases hb2 : r2.jsonBody with
                    | none => simp [hge1, hb1, hge2, hb2]
                    | some fc =>
                        right
                        exact ⟨r1, r2, cur, fc, rfl, hb1, rfl, hb2,
                          by simp [hge1, hb1, hge2, hb2]⟩

/-- C1 witness: a request-level exception on the first GET makes
`get_weather_data` return `(None, None)`. -/
theorem C1_witness :
    (Whetherproject.get_weather_data sampleEnv "London" (.exn "connection refused")
      (.resp ⟨200, some .null⟩)).2 = (none, none) :=
  C1_fetch_error_contract.2.2.2.2.2.2.1 sampleEnv "London"
    (.exn "connection refused") (.resp ⟨200, some .null⟩) (Or.inl trivial)

/-- C7: every HTTP request of either variant carries the value of the
`OPENWEATHER_API_KEY` environment variable as its key, and in the
interactive variant a missing/empty key makes `get_api_key` report an
error and stop instead of returning a key. -/
theorem C7_api_key_from_env :
    (∀ (env : Env) (k : String) (o : HttpResult) (city url a c : String),
        env "OPENWEATHER_API_KEY" = some k → k ≠ "" →
        Event.httpGet url a c ∈ (Weatherproject.fetch_weather_data env o city).1 →
        a = k) ∧
    (∀ (env : Env) (k : String) (o : HttpResult) (city url a c : String),
        env "OPENWEATHER_API_KEY" = some k → k ≠ "" →
        Event.httpGet url a c ∈ (Weatherproject.fetch_forecast_data env o city).1 →
        a = k) ∧
    (∀ (env : Env) (k : String) (city : String) (oCur oFc : HttpResult)
        (url a c : String),
        env "OPENWEATHER_API_KEY" = some k →
        Event.httpGet url a c ∈ (Whetherproject.get_weather_data env city oCur oFc).1 →
        a = k) ∧
    (∀ env : Env,
        env "OPENWEATHER_API_KEY" = none ∨ env "OPENWEATHER_API_KEY" = some "" →
        Weatherproject.get_api_key env =
          ([.stError Weatherproject.apiKeyErrorMsg, .stStop], .stopped)) := by
  refine ⟨?_, ?_, ?_, ?_⟩
  · intro env k o city url a c hk hne hmem
    unfold Weatherproject.fetch_weather_data Weatherproject.get_api_key at hmem
    rw [hk] at hmem
    simp only [hne, if_false] at hmem
    cases o with
    | exn m => simp at hmem; simp_all
    | resp r =>
        by_cases h404 : r.status = 404
        · simp [h404] at hmem; simp_all
        · by_cases hge : 400 ≤ r.status
          · simp [h404, hge] at hmem; simp_all
          · cases hb : r.jsonBody with
            | none => simp [h404, hge, hb] at hmem; simp_all
            | some j => simp [h404, hge, hb] at hmem; simp_all
  · intro env k o city url a c hk hne hmem
    unfold Weatherproject.fetch_forecast_data Weatherproject.get_api_key at hmem
    rw [hk] at hmem
    simp only [hne, if_false] at hmem
    cases o with
    | exn m => simp at hmem; simp_all
    | resp r =>
        by_cases hge : 400 ≤ r.status
        · simp [hge] at hmem; simp_all
        · cases hb : r.jsonBody with
          | none => simp [hge, hb] at hmem; simp_all
          | some j => simp [hge, hb] at hmem; simp_all
  · intro env k city oCur oFc url a c hk hmem
    unfold Whetherproject.get_weather_data Whetherproject.apiKeyString at hmem
    rw [hk] at hmem
    cases oCur with
    | exn m =>
        simp [Whetherproject.fetchErrorPrints] at hmem
        simp_all
    | resp r1 =>
        by_cases hge1 : 400 ≤ r1.status
        · simp [hge1, Whetherproject.fetchErrorPrints] at hmem
          simp_all
        · cases hb1 : r1.jsonBody with
          | none =>
              simp [hge1, hb1, Whetherproject.fetchErrorPrints] at hmem
              simp_all
          | some cur =>
              cases oFc with
              | exn m =>
                  simp [hge1, hb1, Whetherproject.fetchErrorPrints] at hmem
                  rcases hmem with h | h <;> simp_all
              | resp r2 =>
                  by_cases hge2 : 400 ≤ r2.status
                  · simp [hge1, hb1, hge2, Whetherproject.fetchErrorPrints] at hmem
                    rcases hmem with h | h <;> simp_all
                  · cases hb2 : r2.jsonBody with
                    | none =>
                        simp [hge1, hb1, hge2, hb2,
                          Whetherproject.fetchErrorPrints] at hmem
                        rcases hmem with h | h <;> simp_all
                    | some fc =>
                        simp [hge1, hb1, hge2, hb2] at hmem
                        rcases hmem with h | h <;> simp_all
  · intro env h
    unfold Weatherproject.get_api_key
    rcases h with h | h <;> rw [h] <;> simp

/-- C7 witness: the theorem applied to the sample environment, where the
configured key is `"testkey"` and the issued request carries it. -/
theorem C7_witness : "testkey" = "testkey" :=
  C7_api_key_from_env.1 sampleEnv "testkey" (.resp ⟨200, some sampleWeather⟩)
    "London" Weatherproject.BASE_URL "testkey" "London" rfl (by decide) (by decide)

namespace Weatherproject

theorem insertEntry_keys (acc : List (String × List FEntry)) (d : String) (e : FEntry) :
    (insertEntry acc d e).map Prod.fst =
      if d ∈ acc.map Prod.fst then acc.map Prod.fst
      else acc.map Prod.fst ++ [d] := by
  induction acc with
  | nil => simp [insertEntry]
  | cons b rest ih =>
      obtain ⟨k, es⟩ := b
      by_cases hk : k = d
      · subst hk
        simp [insertEntry]
      · have hdk : ¬ d = k := fun hc => hk hc.symm
        by_cases hmem : d ∈ rest.map Prod.fst
        · simp [insertEntry, hk, hdk, ih, hmem]
        · simp [insertEntry, hk, hdk, ih, hmem]

theorem insertEntry_keys_nodup (acc : List (String × List FEntry)) (d : String)
    (e : FEntry) (h : (acc.map Prod.fst).Nodup) :
    ((insertEntry acc d e).map Prod.fst).Nodup := by
  rw [insertEntry_keys]
  split
  · exact h
  · rename_i hd
    refine List.Nodup.append h (List.nodup_singleton d) ?_
    intro a ha hb
    simp at hb
    subst hb
    exact hd ha

theorem insertEntry_dates (dateOf : ℚ → String) (acc : List (String × List FEntry))
    (d : String) (e : FEntry)
    (h : ∀ b ∈ acc, ∀ x ∈ b.2, dateOf x.dt = b.1) (hde : dateOf e.dt = d) :
    ∀ b ∈ insertEntry acc d e, ∀ x ∈ b.2, dateOf x.dt = b.1 := by
  induction acc with
  | nil =>
      intro b hb x hx
      simp [insertEntry] at hb
      subst hb
      simp at hx
      subst hx
      exact hde
  | cons p rest ih =>
      obtain ⟨k, es⟩ := p
      intro b hb x hx
      by_cases hk : k = d
      · subst hk
        simp [insertEntry] at hb
        rcases hb with hb | hb
        · subst hb
          simp at hx
          rcases hx with hx | hx
          · exact h (k, es) (by simp) x hx
          · subst hx; exact hde
        · exact h b (by simp [hb]) x hx
      · simp [insertEntry, hk] at hb
        rcases hb with hb | hb
        · subst hb
          exact h (k, es) (by simp) x hx
        · exact ih (fun b2 hb2 => h b2 (by simp [hb2])) b hb x hx

theorem insertEntry_flatMap (acc : List (String × List FEntry)) (d : String) (e : FEntry) :
    ((insertEntry acc d e).flatMap Prod.snd).Perm ((acc.flatMap Prod.snd) ++ [e]) := by
  induction acc with
  | nil => simp [insertEntry]
  | cons p rest ih =>
      obtain ⟨k, es⟩ := p
      by_cases hk : k = d
      · subst hk
        simp [insertEntry]
        exact List.Perm.append_left es (List.perm_append_singleton e _).symm
      · simp [insertEntry, hk]
        exact List.Perm.append_left es ih

theorem insertEntry_ne_nil (acc : List (String × List FEntry)) (d : String)
    (e : FEntry) (h : ∀ b ∈ acc, b.2 ≠ []) :
    ∀ b ∈ insertEntry acc d e, b.2 ≠ [] := by
  induction acc with
  | nil =>
      intro b hb
      simp [insertEntry] at hb
      subst hb
      simp
  | cons p rest ih =>
      obtain ⟨k, es⟩ := p
      intro b hb
      by_cases hk : k = d
      · subst hk
        simp [insertEntry] at hb
        rcases hb with hb | hb
        · subst hb; simp
        · exact h b (by simp [hb])
      · simp [insertEntry, hk] at hb
        rcases hb with hb | hb
        · subst hb
          exact h (k, es) (by simp)
        · exact ih (fun b2 hb2 => h b2 (by simp [hb2])) b hb

theorem groupAux_keys_nodup (dateOf : ℚ → String) :
    ∀ (es : List FEntry) (acc : List (String × List FEntry)),
      (acc.map Prod.fst).Nodup →
      ((es.foldl (fun a e => insertEntry a (dateOf e.dt) e) acc).map Prod.fst).Nodup := by
  intro es
  induction es with
  | nil => intro acc h; simpa using h
  | cons e rest ih =>
      intro acc h
      simp only [List.foldl_cons]
      exact ih _ (insertEntry_keys_nodup acc (dateOf e.dt) e h)

theorem groupAux_dates (dateOf : ℚ → String) :
    ∀ (es : List FEntry) (acc : List (String × List FEntry)),
      (∀ b ∈ acc, ∀ x ∈ b.2, dateOf x.dt = b.1) →
      ∀ b ∈ es.foldl (fun a e => insertEntry a (dateOf e.dt) e) acc,
        ∀ x ∈ b.2, dateOf x.dt = b.1 := by
  intro es
  induction es with
  | nil => intro acc h; simpa using h
  | cons e rest ih =>
      intro acc h
      simp only [List.foldl_cons]
      exact ih _ (insertEntry_dates dateOf acc (dateOf e.dt) e h rfl)

theorem groupAux_ne_nil (dateOf : ℚ → String) :
    ∀ (es : List FEntry) (acc : List (String × List FEntry)),
      (∀ b ∈ acc, b.2 ≠ []) →
      ∀ b ∈ es.foldl (fun a e => insertEntry a (dateOf e.dt) e) acc, b.2 ≠ [] := by
  intro es
  induction es with
  | nil => intro acc h; simpa using h
  | cons e rest ih =>
      intro acc h
      simp only [List.foldl_cons]
      exact ih _ (insertEntry_ne_nil acc (dateOf e.dt) e h)

theorem groupAux_flatMap (dateOf : ℚ → String) :
    ∀ (es : List FEntry) (acc : List (String × List FEntry)),
      ((es.foldl (fun a e => insertEntry a (dateOf e.dt) e) acc).flatMap
          Prod.snd).Perm ((acc.flatMap Prod.snd) ++ es) := by
  intro es
  induction es with
  | nil => intro acc; simp
  | cons e rest ih =>
      intro acc
      simp only [List.foldl_cons]
      have h1 := ih (insertEntry acc (dateOf e.dt) e)
      have h2 : ((insertEntry acc (dateOf e.dt) e).flatMap Prod.snd ++ rest).Perm
          ((acc.flatMap Prod.snd ++ [e]) ++ rest) :=
        (insertEntry_flatMap acc (dateOf e.dt) e).append_right rest
      refine (h1.trans h2).trans ?_
      simp

/-- The buckets of `groupByDate` partition the entries: bucket keys are
distinct, every member of a bucket has that bucket's date, every bucket
is nonempty, and the buckets' members are a permutation of the input. -/
theorem groupByDate_partition (dateOf : ℚ → String) (es : List FEntry) :
    (∀ b ∈ groupByDate dateOf es, ∀ x ∈ b.2, dateOf x.dt = b.1) ∧
    ((groupByDate dateOf es).map Prod.fst).Nodup ∧
    (∀ b ∈ groupByDate dateOf es, b.2 ≠ []) ∧
    ((groupByDate dateOf es).flatMap Prod.snd).Perm es := by
  refine ⟨?_, ?_, ?_, ?_⟩
  · exact groupAux_dates dateOf es [] (by simp)
  · exact groupAux_keys_nodup dateOf es [] (by simp)
  · exact groupAux_ne_nil dateOf es [] (by simp)
  · simpa using groupAux_flatMap dateOf es []

theorem foldl_argmax (l : List String) :
    ∀ (cs : List String) (b : String),
      (cs.foldl (fun best c2 => if l.count best < l.count c2 then c2 else best) b = b ∨
        cs.foldl (fun best c2 => if l.count best < l.count c2 then c2 else best) b ∈ cs) ∧
      l.count b ≤
        l.count (cs.foldl (fun best c2 => if l.count best < l.count c2 then c2 else best) b) ∧
      ∀ c ∈ cs, l.count c ≤
        l.count (cs.foldl (fun best c2 => if l.count best < l.count c2 then c2 else best) b) := by
  intro cs
  induction cs with
  | nil => intro b; simp
  | cons c2 rest ih =>
      intro b
      simp only [List.foldl_cons]
      by_cases hlt : l.count b < l.count c2
      · simp only [hlt, if_true]
        obtain ⟨hmem, hle, hall⟩ := ih c2
        refine ⟨?_, le_trans (le_of_lt hlt) hle, ?_⟩
        · rcases hmem with h | h
          · exact Or.inr (by simp [h])
          · exact Or.inr (by simp [h])
        · intro c hc
          rcases List.mem_cons.mp hc with h | h
          · subst h; exact hle
          · exact hall c h
      · simp only [hlt, if_false]
        obtain ⟨hmem, hle, hall⟩ := ih b
        refine ⟨?_, hle, ?_⟩
        · rcases hmem with h | h
          · exact Or.inl h
          · exact Or.inr (by simp [h])
        · intro c hc
          rcases List.mem_cons.mp hc with h | h
          · subst h
            exact le_trans (le_of_not_lt hlt) hle
          · exact hall c h

/-- `max(set(conditions), key=conditions.count)` returns a condition of
maximal count (for a nonempty list). -/
theorem mostCommon_spec (l : List String) (h : l ≠ []) :
    mostCommon l ∈ l ∧ ∀ c ∈ l, l.count c ≤ l.count (mostCommon l) := by
  have hd : l.dedup ≠ [] := by
    intro hc
    exact h (by simpa [List.dedup_eq_nil] using hc)
  cases hdd : l.dedup with
  | nil => exact absurd hdd hd
  | cons c cs =>
      unfold mostCommon
      rw [hdd]
      obtain ⟨hmem, hle, hall⟩ := foldl_argmax l cs c
      constructor
      · have hin : (cs.foldl (fun best c2 => if l.count best < l.count c2 then c2 else best) c)
            ∈ c :: cs := by
          rcases hmem with h1 | h1
          · simp [h1]
          · simp [h1]
        rw [← hdd] at hin
        exact List.mem_dedup.mp hin
      · intro x hx
        have hx2 : x ∈ c :: cs := hdd ▸ List.mem_dedup.mpr hx
        rcases List.mem_cons.mp hx2 with h1 | h1
        · subst h1; exact hle
        · exact hall x h1

end Weatherproject

def sampleFEntries : List Weatherproject.FEntry :=
  [⟨0, 10, "Rain"⟩, ⟨10800, 20, "Clouds"⟩, ⟨100000, 30, "Clouds"⟩]

/-- C4: `display_forecast` partitions the forecast-list entries into
calendar-date buckets (every entry lands in exactly one bucket: bucket
keys are distinct, bucket members carry that date, and the buckets
jointly are a permutation of the input); per bucket it displays the
arithmetic mean of the temperatures and a most frequent condition. -/
theorem C4_daily_buckets (dateOf : ℚ → String) (lower : String → String)
    (es : List Weatherproject.FEntry) :
    (∀ b ∈ Weatherproject.groupByDate dateOf es, ∀ x ∈ b.2, dateOf x.dt = b.1) ∧
    ((Weatherproject.groupByDate dateOf es).map Prod.fst).Nodup ∧
    ((Weatherproject.groupByDate dateOf es).flatMap Prod.snd).Perm es ∧
    (∀ b ∈ Weatherproject.groupByDate dateOf es,
      b.2 ≠ [] ∧
      Weatherproject.avgTemp b.2 * (b.2.length : ℚ) =
        (b.2.map Weatherproject.FEntry.temp).sum ∧
      Weatherproject.mostCommon (Weatherproject.conditionsOf lower b.2) ∈
        Weatherproject.conditionsOf lower b.2 ∧
      ∀ c ∈ Weatherproject.conditionsOf lower b.2,
        (Weatherproject.conditionsOf lower b.2).count c ≤
          (Weatherproject.conditionsOf lower b.2).count
            (Weatherproject.mostCommon (Weatherproject.conditionsOf lower b.2))) ∧
    (∀ (f : Json) (lst : List Json) (ms : List (String × ℚ × String)),
      Json.truthy f = true →
      (f.get "list").bind Json.asArr = some lst →
      Weatherproject.parseFEntries lst = some es →
      Weatherproject.display_forecast dateOf lower (some f) = some ms →
      ms = (Weatherproject.groupByDate dateOf es).map (fun b =>
        (b.1, Weatherproject.avgTemp b.2,
          Weatherproject.mostCommon (Weatherproject.conditionsOf lower b.2)))) := by
  obtain ⟨hdates, hnodup, hnenil, hperm⟩ :=
    Weatherproject.groupByDate_partition dateOf es
  refine ⟨hdates, hnodup, hperm, ?_, ?_⟩
  · intro b hb
    have hne : b.2 ≠ [] := hnenil b hb
    have hcne : Weatherproject.conditionsOf lower b.2 ≠ [] := by
      simp [Weatherproject.conditionsOf]
      exact hne
    obtain ⟨hmem, hmax⟩ := Weatherproject.mostCommon_spec _ hcne
    refine ⟨hne, ?_, hmem, hmax⟩
    have hlen : ((b.2.length : ℚ)) ≠ 0 := by
      simp
      exact hne
    unfold Weatherproject.avgTemp
    exact div_mul_cancel₀ _ hlen
  · intro f lst ms htr hlst hes hdisp
    unfold Weatherproject.display_forecast at hdisp
    simp only [truthyOpt, htr, if_true, hlst, hes] at hdisp
    by_cases hemp : (Weatherproject.groupByDate dateOf es).isEmpty
    · simp [hemp] at hdisp
    · simp [hemp] at hdisp
      exact hdisp.symm

/-- C4 witness: the bucket display computed on the sample forecast (two
day buckets; means 15 and 30; modal conditions "Rain" and "Clouds" with
the identity as the lower-casing oracle). -/
theorem C4_witness :
    [("2026-10-12", (15 : ℚ), "Rain"), ("2026-10-13", (30 : ℚ), "Clouds")] =
      (Weatherproject.groupByDate sampleDateOf sampleFEntries).map (fun b =>
        (b.1, Weatherproject.avgTemp b.2,
          Weatherproject.mostCommon
            (Weatherproject.conditionsOf (fun s => s) b.2))) := by
  have hg : Weatherproject.groupByDate sampleDateOf sampleFEntries =
      [("2026-10-12", [⟨0, 10, "Rain"⟩, ⟨10800, 20, "Clouds"⟩]),
       ("2026-10-13", [⟨100000, 30, "Clouds"⟩])] := by rfl
  have hdisp : Weatherproject.display_forecast sampleDateOf (fun s => s)
      (some sampleForecast) =
      some [("2026-10-12", (15 : ℚ), "Rain"), ("2026-10-13", (30 : ℚ), "Clouds")] := by
    unfold Weatherproject.display_forecast
    have h1 : truthyOpt (some sampleForecast) = true := by rfl
    have h2 : (sampleForecast.get "list").bind Json.asArr =
        some [sampleEntry 0 10 "Rain", sampleEntry 10800 20 "Clouds",
              sampleEntry 100000 30 "Clouds"] := by rfl
    have h3 : Weatherproject.parseFEntries
        [sampleEntry 0 10 "Rain", sampleEntry 10800 20 "Clouds",
         sampleEntry 100000 30 "Clouds"] = some sampleFEntries := by rfl
    simp only [h1, if_true, h2, h3, hg]
    norm_num [Weatherproject.avgTemp, Weatherproject.conditionsOf,
      Weatherproject.mostCommon]
    decide
  exact (C4_daily_buckets sampleDateOf (fun s => s) sampleFEntries).2.2.2.2
    sampleForecast
    [sampleEntry 0 10 "Rain", sampleEntry 10800 20 "Clouds", sampleEntry 100000 30 "Clouds"]
    [("2026-10-12", 15, "Rain"), ("2026-10-13", 30, "Clouds")]
    (by rfl) (by rfl) (by rfl) hdisp

namespace Weatherproject

/-- Every event of a `fetch_weather_data` trace is the current-weather
GET (for the requested city), the 404 warning, an error, or a stop. -/
theorem fw_events_shape (env : Env) (o : HttpResult) (city : String) :
    ∀ e ∈ (fetch_weather_data env o city).1,
      (∃ a, e = .httpGet BASE_URL a city) ∨ e = .stWarning cityNotFoundMsg ∨
      (∃ m, e = .stError m) ∨ e = .stStop := by
  intro e he
  unfold fetch_weather_data get_api_key at he
  rcases hk : env "OPENWEATHER_API_KEY" with _ | k
  · rw [hk] at he
    simp at he
    rcases he with h | h
    · exact Or.inr (Or.inr (Or.inl ⟨_, h⟩))
    · exact Or.inr (Or.inr (Or.inr h))
  · rw [hk] at he
    by_cases hke : k = ""
    · simp [hke] at he
      rcases he with h | h
      · exact Or.inr (Or.inr (Or.inl ⟨_, h⟩))
      · exact Or.inr (Or.inr (Or.inr h))
    · simp only [hke, if_false] at he
      cases o with
      | exn m =>
          simp at he
          rcases he with h | h | h
          · exact Or.inl ⟨_, h⟩
          · exact Or.inr (Or.inr (Or.inl ⟨_, h⟩))
          · exact Or.inr (Or.inr (Or.inr h))
      | resp r =>
          by_cases h404 : r.status = 404
          · simp [h404] at he
            rcases he with h | h
            · exact Or.inl ⟨_, h⟩
            · exact Or.inr (Or.inl h)
          · by_cases hge : 400 ≤ r.status
            · simp [h404, hge] at he
              rcases he with h | h | h
              · exact Or.inl ⟨_, h⟩
              · exact Or.inr (Or.inr (Or.inl ⟨_, h⟩))
              · exact Or.inr (Or.inr (Or.inr h))
            · cases hb : r.jsonBody with
              | some j =>
                  simp [h404, hge, hb] at he
                  exact Or.inl ⟨_, he⟩
              | none =>
                  simp [h404, hge, hb] at he
                  rcases he with h | h | h
                  · exact Or.inl ⟨_, h⟩
                  · exact Or.inr (Or.inr (Or.inl ⟨_, h⟩))
                  · exact Or.inr (Or.inr (Or.inr h))

/-- Every event of a `fetch_forecast_data` trace is the forecast GET
(for the requested city), a warning, an error, or a stop. -/
theorem ff_events_shape (env : Env) (o : HttpResult) (city : String) :
    ∀ e ∈ (fetch_forecast_data env o city).1,
      (∃ a, e = .httpGet FORECAST_URL a city) ∨ (∃ m, e = .stWarning m) ∨
      (∃ m, e = .stError m) ∨ e = .stStop := by
  intro e he
  unfold fetch_forecast_data get_api_key at he
  rcases hk : env "OPENWEATHER_API_KEY" with _ | k
  · rw [hk] at he
    simp at he
    rcases he with h | h
    · exact Or.inr (Or.inr (Or.inl ⟨_, h⟩))
    · exact Or.inr (Or.inr (Or.inr h))
  · rw [hk] at he
    by_cases hke : k = ""
    · simp [hke] at he
      rcases he with h | h
      · exact Or.inr (Or.inr (Or.inl ⟨_, h⟩))
      · exact Or.inr (Or.inr (Or.inr h))
    · simp only [hke, if_false] at he
      cases o with
      | exn m =>
          simp at he
          rcases he with h | h
          · exact Or.inl ⟨_, h⟩
          · exact Or.inr (Or.inl ⟨_, h⟩)
      | resp r =>
          by_cases hge : 400 ≤ r.status
          · simp [hge] at he
            rcases he with h | h
            · exact Or.inl ⟨_, h⟩
            · exact Or.inr (Or.inl ⟨_, h⟩)
          · cases hb : r.jsonBody with
            | some j =>
                simp [hge, hb] at he
                exact Or.inl ⟨_, he⟩
            | none =>
                simp [hge, hb] at he
                rcases he with h | h
                · exact Or.inl ⟨_, h⟩
                · exact Or.inr (Or.inl ⟨_, h⟩)

/-- A weather fetch that returns a parsed body issued exactly the one
GET and nothing else. -/
theorem fw_ok_some_trace (env : Env) (o : HttpResult) (city : String)
    (t : List Event) (j : Json)
    (h : fetch_weather_data env o city = (t, .ok (some j))) :
    ∃ a, t = [.httpGet BASE_URL a city] := by
  unfold fetch_weather_data get_api_key at h
  rcases hk : env "OPENWEATHER_API_KEY" with _ | k
  · rw [hk] at h; simp at h
  · rw [hk] at h
    by_cases hke : k = ""
    · simp [hke] at h
    · simp only [hke, if_false] at h
      cases o with
      | exn m => simp at h
      | resp r =>
          by_cases h404 : r.status = 404
          · simp [h404] at h
          · by_cases hge : 400 ≤ r.status
            · simp [h404, hge] at h
            · cases hb : r.jsonBody with
              | some j2 =>
                  simp [h404, hge, hb] at h
                  exact ⟨k, by simp [h.1.symm]⟩
              | none => simp [h404, hge, hb] at h

/-- A forecast fetch that returns (rather than stopping) leaves a trace
of the one GET, possibly followed by the forecast-failure warning. -/
theorem ff_ok_trace (env : Env) (o : HttpResult) (city : String)
    (t : List Event) (fd : Option Json)
    (h : fetch_forecast_data env o city = (t, .ok fd)) :
    ∀ e ∈ t, (∃ a, e = .httpGet FORECAST_URL a city) ∨
      ∃ m, e = .stWarning ("Couldn\x27t fetch forecast data: " ++ m) := by
  unfold fetch_forecast_data get_api_key at h
  rcases hk : env "OPENWEATHER_API_KEY" with _ | k
  · rw [hk] at h; simp at h
  · rw [hk] at h
    by_cases hke : k = ""
    · simp [hke] at h
    · simp only [hke, if_false] at h
      cases o with
      | exn m =>
          simp at h
          intro e he
          rw [← h.1] at he
          simp at he
          rcases he with h2 | h2
          · exact Or.inl ⟨_, h2⟩
          · exact Or.inr ⟨_, h2⟩
      | resp r =>
          by_cases hge : 400 ≤ r.status
          · simp [hge] at h
            intro e he
            rw [← h.1] at he
            simp at he
            rcases he with h2 | h2
            · exact Or.inl ⟨_, h2⟩
            · exact Or.inr ⟨_, h2⟩
          · cases hb : r.jsonBody with
            | some j =>
                simp [hge, hb] at h
                intro e he
                rw [← h.1] at he
                simp at he
                exact Or.inl ⟨_, he⟩
            | none =>
                simp [hge, hb] at h
                intro e he
                rw [← h.1] at he
                simp at he
                rcases he with h2 | h2
                · exact Or.inl ⟨_, h2⟩
                · exact Or.inr ⟨_, h2⟩

end Weatherproject

namespace Weatherproject

/-- Each fetch issues at most one request to its endpoint. -/
theorem fw_countGet_le_one (env : Env) (o : HttpResult) (city url : String) :
    countGet (fetch_weather_data env o city).1 url ≤ 1 := by
  unfold fetch_weather_data get_api_key
  rcases hk : env "OPENWEATHER_API_KEY" with _ | k
  · simp [countGet]
  · by_cases hke : k = ""
    · simp [hke, countGet]
    · simp only [hke, if_false]
      cases o with
      | exn m => simp [countGet, List.countP_cons]; split <;> simp
      | resp r =>
          by_cases h404 : r.status = 404
          · simp [h404, countGet, List.countP_cons]; split <;> simp
          · by_cases hge : 400 ≤ r.status
            · simp [h404, hge, countGet, List.countP_cons]; split <;> simp
            · cases hb : r.jsonBody with
              | some j => simp [h404, hge, hb, countGet, List.countP_cons]; split <;> simp
              | none => simp [h404, hge, hb, countGet, List.countP_cons]; split <;> simp

theorem ff_countGet_le_one (env : Env) (o : HttpResult) (city url : String) :
    countGet (fetch_forecast_data env o city).1 url ≤ 1 := by
  unfold fetch_forecast_data get_api_key
  rcases hk : env "OPENWEATHER_API_KEY" with _ | k
  · simp [countGet]
  · by_cases hke : k = ""
    · simp [hke, countGet]
    · simp only [hke, if_false]
      cases o with
      | exn m => simp [countGet, List.countP_cons]; split <;> simp
      | resp r =>
          by_cases hge : 400 ≤ r.status
          · simp [hge, countGet, List.countP_cons]; split <;> simp
          · cases hb : r.jsonBody with
            | some j => simp [hge, hb, countGet, List.countP_cons]; split <;> simp
            | none => simp [hge, hb, countGet, List.countP_cons]; split <;> simp

/-- A weather-fetch trace never touches the forecast endpoint. -/
theorem fw_countGet_forecast_zero (env : Env) (o : HttpResult) (city : String) :
    countGet (fetch_weather_data env o city).1 FORECAST_URL = 0 := by
  rw [countGet, List.countP_eq_zero]
  intro e he
  rcases fw_events_shape env o city e he with ⟨a, rfl⟩ | rfl | ⟨m, rfl⟩ | rfl
  · simp
    decide
  · simp
  · simp
  · simp

/-- A forecast-fetch trace never touches the current-weather endpoint. -/
theorem ff_countGet_base_zero (env : Env) (o : HttpResult) (city : String) :
    countGet (fetch_forecast_data env o city).1 BASE_URL = 0 := by
  rw [countGet, List.countP_eq_zero]
  intro e he
  rcases ff_events_shape env o city e he with ⟨a, rfl⟩ | ⟨m, rfl⟩ | ⟨m, rfl⟩ | rfl
  · simp
    decide
  · simp
  · simp
  · simp

/-- The card trace is empty or the fixed metric list. -/
theorem card_events_cases (data : Option Json) (evs : List Event)
    (h : display_weather_card data = some evs) :
    evs = [] ∨
    evs = [.subheaderShown "Current Weather",
           .metricShown "Description", .metricShown "Temperature",
           .metricShown "Feels Like", .metricShown "Humidity",
           .metricShown "Pressure", .metricShown "Visibility",
           .metricShown "Wind Speed", .metricShown "Wind Direction",
           .metricShown "Sunrise/Sunset"] := by
  cases data with
  | none =>
      simp [display_weather_card] at h
      first
        | exact Or.inl h.symm
        | exact Or.inl h
  | some d =>
      by_cases ht : d.truthy
      · by_cases hr : (cardReads d).all Option.isSome
        · simp [display_weather_card, ht, hr] at h
          first
            | exact Or.inr h.symm
            | exact Or.inr h
        · simp [display_weather_card, ht, hr] at h
      · simp [display_weather_card, ht] at h
        first
          | exact Or.inl h.symm
          | exact Or.inl h

/-- Every forecast-section event is the section subheader or a metric. -/
theorem forecastSection_events (dateOf : ℚ → String) (lower : String → String)
    (fd : Option Json) (evs : List Event)
    (h : forecastSection dateOf lower fd = some evs) :
    ∀ e ∈ evs, e = .subheaderShown "📅 5-Day Forecast" ∨ ∃ l, e = .metricShown l := by
  unfold forecastSection at h
  by_cases ht : truthyOpt fd
  · rw [if_pos ht] at h
    cases hd : display_forecast dateOf lower fd with
    | none => rw [hd] at h; simp at h
    | some ms =>
        rw [hd] at h
        simp at h
        intro e he
        rw [← h] at he
        simp at he
        rcases he with he | he
        · exact Or.inl he
        · obtain ⟨m, _, hm⟩ := he
          exact Or.inr ⟨_, hm.symm⟩
  · rw [if_neg ht] at h
    simp at h
    intro e he
    subst h
    simp at he

end Weatherproject

theorem persistAfterRenderOK_append_neutral (pre rest : List Event)
    (h : ∀ e ∈ pre, isRenderEvent e = false ∧ isPersistEvent e = false) :
    persistAfterRenderOK (pre ++ rest) = persistAfterRenderOK rest := by
  induction pre with
  | nil => simp
  | cons e es ih =>
      obtain ⟨hr, hp⟩ := h e (by simp)
      simp only [List.cons_append, persistAfterRenderOK, hr, hp, if_false]
      exact ih (fun e2 he2 => h e2 (by simp [he2]))

theorem persistAfterRenderOK_render_head (e : Event) (t : List Event)
    (hr : isRenderEvent e = true) (hp : isPersistEvent e = false) :
    persistAfterRenderOK (e :: t) = true := by
  simp [persistAfterRenderOK, hr, hp]

theorem persistAfterRenderOK_all_neutral (t : List Event)
    (h : ∀ e ∈ t, isRenderEvent e = false ∧ isPersistEvent e = false) :
    persistAfterRenderOK t = true := by
  have := persistAfterRenderOK_append_neutral t [] h
  simpa using this

theorem countGet_append (a b : List Event) (u : String) :
    countGet (a ++ b) u = countGet a u + countGet b u := by
  simp [countGet, List.countP_append]

theorem countGet_eq_zero_of_no_get (t : List Event) (u : String)
    (h : ∀ url a c, Event.httpGet url a c ∉ t) : countGet t u = 0 := by
  rw [countGet, List.countP_eq_zero]
  intro e he
  cases e with
  | httpGet url a c => exact absurd he (h url a c)
  | stWarning m => simp
  | stError m => simp
  | stStop => simp
  | subheaderShown ti => simp
  | metricShown l => simp
  | chartShown ti => simp
  | downloadOffered f => simp
  | printed m => simp
  | savedPNG f => simp
  | savedCSV f => simp
  | plotWindowShown => simp

namespace Weatherproject

/-- Any GET in a weather-fetch trace is for the requested city. -/
theorem fw_get_city (env : Env) (o : HttpResult) (city url a c : String)
    (hmem : Event.httpGet url a c ∈ (fetch_weather_data env o city).1) :
    c = city := by
  rcases fw_events_shape env o city _ hmem with ⟨a2, he⟩ | he | ⟨m, he⟩ | he <;> simp_all

/-- Any GET in a forecast-fetch trace is for the requested city. -/
theorem ff_get_city (env : Env) (o : HttpResult) (city url a c : String)
    (hmem : Event.httpGet url a c ∈ (fetch_forecast_data env o city).1) :
    c = city := by
  rcases ff_events_shape env o city _ hmem with ⟨a2, he⟩ | ⟨m, he⟩ | ⟨m, he⟩ | he <;> simp_all

end Weatherproject

/-- C10: in the interactive variant the fetch operations run only for
validated city strings (stripped input nonempty, all characters
alphabetic/whitespace/hyphen/apostrophe/comma/period, and every issued
request is for exactly that string); empty input warns and stops, and
invalid input errors and stops, both before any HTTP request and leaving
`st.session_state.city` unchanged. -/
theorem C10_validated_fetch (ctx : Weatherproject.Ctx)
    (rawInput sessionCity : String) (buttonPressed : Bool)
    (t : List Event) (s : String) (st : Weatherproject.Steps) :
    (Weatherproject.main ctx rawInput sessionCity buttonPressed = some (t, s, st) →
      ∀ url a c, Event.httpGet url a c ∈ t →
        ctx.pyStrip rawInput ≠ "" ∧
        Weatherproject.validChars ctx (ctx.pyStrip rawInput) = true ∧
        c = ctx.pyStrip rawInput) ∧
    ((buttonPressed || ctx.pyStrip rawInput != sessionCity) = true →
      ctx.pyStrip rawInput = "" →
      Weatherproject.main ctx rawInput sessionCity buttonPressed =
        some ([.stWarning Weatherproject.emptyCityMsg, .stStop], sessionCity,
          Weatherproject.noSteps)) ∧
    ((buttonPressed || ctx.pyStrip rawInput != sessionCity) = true →
      ctx.pyStrip rawInput ≠ "" →
      Weatherproject.validChars ctx (ctx.pyStrip rawInput) = false →
      Weatherproject.main ctx rawInput sessionCity buttonPressed =
        some ([.stError Weatherproject.invalidCityMsg, .stStop], sessionCity,
          Weatherproject.noSteps)) := by
  refine ⟨?_, ?_, ?_⟩
  · intro hmain url a c hmem
    unfold Weatherproject.main at hmain
    dsimp only at hmain
    split at hmain
    · split at hmain
      · simp at hmain
        obtain ⟨ht, hs, hst⟩ := hmain
        subst ht
        simp at hmem
      · rename_i hcity
        split at hmain
        · simp at hmain
          obtain ⟨ht, hs, hst⟩ := hmain
          subst ht
          simp at hmem
        · rename_i hval
          have hvalid : Weatherproject.validChars ctx (ctx.pyStrip rawInput) = true := by
            simpa using hval
          refine ⟨hcity, hvalid, ?_⟩
          split at hmain
          · rename_i evs heq
            simp at hmain
            obtain ⟨ht, hs, hst⟩ := hmain
            subst ht
            exact Weatherproject.fw_get_city ctx.env ctx.oW _ url a c (by rw [heq]; exact hmem)
          · rename_i evs wd heq
            split at hmain
            · rename_i fevs heq2
              simp at hmain
              obtain ⟨ht, hs, hst⟩ := hmain
              subst ht
              rcases List.mem_append.mp hmem with hm | hm
              · exact Weatherproject.fw_get_city ctx.env ctx.oW _ url a c (by rw [heq]; exact hm)
              · exact Weatherproject.ff_get_city ctx.env ctx.oF _ url a c (by rw [heq2]; exact hm)
            · rename_i fevs fd heq2
              split at hmain
              · split at hmain
                · simp at hmain
                · rename_i cardEvs heqCard
                  split at hmain
                  · simp at hmain
                  · rename_i fcEvs heqFc
                    split at hmain
                    · simp at hmain
                    · rename_i bt bh heqMock
                      simp at hmain
                      obtain ⟨ht, hs, hst⟩ := hmain
                      subst ht
                      simp only [List.append_assoc, List.mem_append] at hmem
                      rcases hmem with hm | hm | hm | hm | hm
                      · exact Weatherproject.fw_get_city ctx.env ctx.oW _ url a c
                          (by rw [heq]; exact hm)
                      · exact Weatherproject.ff_get_city ctx.env ctx.oF _ url a c
                          (by rw [heq2]; exact hm)
                      · rcases Weatherproject.card_events_cases wd cardEvs heqCard with rfl | rfl
                        · simp at hm
                        · simp at hm
                      · rcases Weatherproject.forecastSection_events ctx.dateOf ctx.pyLower
                            fd fcEvs heqFc _ hm with he | ⟨l, he⟩ <;> simp_all
                      · simp [Weatherproject.create_visualizations] at hm
              · simp at hmain
                obtain ⟨ht, hs, hst⟩ := hmain
                subst ht
                rcases List.mem_append.mp hmem with hm | hm
                · exact Weatherproject.fw_get_city ctx.env ctx.oW _ url a c (by rw [heq]; exact hm)
                · exact Weatherproject.ff_get_city ctx.env ctx.oF _ url a c (by rw [heq2]; exact hm)
    · simp at hmain
      obtain ⟨ht, hs, hst⟩ := hmain
      subst ht
      simp at hmem
  · intro hguard hempty
    unfold Weatherproject.main
    rw [if_pos hguard, if_pos hempty]
  · intro hguard hne hinvalid
    unfold Weatherproject.main
    rw [if_pos hguard, if_neg hne]
    rw [if_pos (by simp [hinvalid])]

/-- C10 witness: on an invalid city string (a digit) with the button
pressed, the run warns, stops, performs no request, and leaves the
session city unchanged. -/
theorem C10_witness :
    Weatherproject.main sampleCtx "Lond0n" "London" true =
      some ([.stError Weatherproject.invalidCityMsg, .stStop], "London",
        Weatherproject.noSteps) :=
  (C10_validated_fetch sampleCtx "Lond0n" "London" true [] "" Weatherproject.noSteps).2.2
    (by decide) (by decide) (by decide)

namespace Weatherproject

/-- Fetch traces contain no chart events. -/
theorem fw_no_chart (env : Env) (o : HttpResult) (city ti : String) :
    Event.chartShown ti ∉ (fetch_weather_data env o city).1 := by
  intro hmem
  rcases fw_events_shape env o city _ hmem with ⟨a2, he⟩ | he | ⟨m, he⟩ | he <;> simp_all

theorem ff_no_chart (env : Env) (o : HttpResult) (city ti : String) :
    Event.chartShown ti ∉ (fetch_forecast_data env o city).1 := by
  intro hmem
  rcases ff_events_shape env o city _ hmem with ⟨a2, he⟩ | ⟨m, he⟩ | ⟨m, he⟩ | he <;> simp_all

/-- Fetch-trace events are neither render nor persist events. -/
theorem fw_neutral (env : Env) (o : HttpResult) (city : String) :
    ∀ e ∈ (fetch_weather_data env o city).1,
      isRenderEvent e = false ∧ isPersistEvent e = false := by
  intro e he
  rcases fw_events_shape env o city _ he with ⟨a2, rfl⟩ | rfl | ⟨m, rfl⟩ | rfl <;>
    simp [isRenderEvent, isPersistEvent]

theorem ff_neutral (env : Env) (o : HttpResult) (city : String) :
    ∀ e ∈ (fetch_forecast_data env o city).1,
      isRenderEvent e = false ∧ isPersistEvent e = false := by
  intro e he
  rcases ff_events_shape env o city _ he with ⟨a2, rfl⟩ | ⟨m, rfl⟩ | ⟨m, rfl⟩ | rfl <;>
    simp [isRenderEvent, isPersistEvent]

theorem fw_countGet_le (env : Env) (o : HttpResult) (city : String) :
    countGet (fetch_weather_data env o city).1 BASE_URL ≤ 1 :=
  fw_countGet_le_one env o city BASE_URL

theorem card_no_get (data : Option Json) (evs : List Event)
    (h : display_weather_card data = some evs) :
    ∀ url a c, Event.httpGet url a c ∉ evs := by
  intro url a c hmem
  rcases card_events_cases data evs h with rfl | rfl <;> simp at hmem

theorem card_no_chart (data : Option Json) (evs : List Event)
    (h : display_weather_card data = some evs) :
    ∀ ti, Event.chartShown ti ∉ evs := by
  intro ti hmem
  rcases card_events_cases data evs h with rfl | rfl <;> simp at hmem

theorem card_neutral (data : Option Json) (evs : List Event)
    (h : display_weather_card data = some evs) :
    ∀ e ∈ evs, isRenderEvent e = false ∧ isPersistEvent e = false := by
  intro e he
  rcases card_events_cases data evs h with rfl | rfl
  · simp at he
  · simp at he
    rcases he with rfl | rfl | rfl | rfl | rfl | rfl | rfl | rfl | rfl | rfl <;>
      simp [isRenderEvent, isPersistEvent]

theorem forecastSection_no_get (dateOf : ℚ → String) (lower : String → String)
    (fd : Option Json) (evs : List Event)
    (h : forecastSection dateOf lower fd = some evs) :
    ∀ url a c, Event.httpGet url a c ∉ evs := by
  intro url a c hmem
  rcases forecastSection_events dateOf lower fd evs h _ hmem with he | ⟨l, he⟩ <;> simp_all

theorem forecastSection_no_chart (dateOf : ℚ → String) (lower : String → String)
    (fd : Option Json) (evs : List Event)
    (h : forecastSection dateOf lower fd = some evs) :
    ∀ ti, Event.chartShown ti ∉ evs := by
  intro ti hmem
  rcases forecastSection_events dateOf lower fd evs h _ hmem with he | ⟨l, he⟩ <;> simp_all

theorem forecastSection_neutral (dateOf : ℚ → String) (lower : String → String)
    (fd : Option Json) (evs : List Event)
    (h : forecastSection dateOf lower fd = some evs) :
    ∀ e ∈ evs, isRenderEvent e = false ∧ isPersistEvent e = false := by
  intro e he
  rcases forecastSection_events dateOf lower fd evs h _ he with rfl | ⟨l, rfl⟩ <;>
    simp [isRenderEvent, isPersistEvent]

end Weatherproject

namespace Whetherproject

/-- Every event of a `get_weather_data` trace is one of the two GETs
(for the requested city) or a print. -/
theorem gw_events_shape (env : Env) (city : String) (oCur oFc : HttpResult) :
    ∀ e ∈ (get_weather_data env city oCur oFc).1,
      (∃ a, e = .httpGet CURRENT_URL a city) ∨
      (∃ a, e = .httpGet FORECAST_URL a city) ∨ (∃ m, e = .printed m) := by
  intro e he
  unfold get_weather_data at he
  cases oCur with
  | exn m =>
      simp [fetchErrorPrints] at he
      rcases he with h | h | h | h | h | h | h <;> simp [h]
  | resp r1 =>
      by_cases hge1 : 400 ≤ r1.status
      · simp [hge1, fetchErrorPrints] at he
        rcases he with h | h | h | h | h | h | h <;> simp [h]
      · cases hb1 : r1.jsonBody with
        | none =>
            simp [hge1, hb1, fetchErrorPrints] at he
            rcases he with h | h | h | h | h | h | h <;> simp [h]
        | some cur =>
            cases oFc with
            | exn m =>
                simp [hge1, hb1, fetchErrorPrints] at he
                rcases he with h | h | h | h | h | h | h | h <;> simp [h]
            | resp r2 =>
                by_cases hge2 : 400 ≤ r2.status
                · simp [hge1, hb1, hge2, fetchErrorPrints] at he
                  rcases he with h | h | h | h | h | h | h | h <;> simp [h]
                · cases hb2 : r2.jsonBody with
                  | none =>
                      simp [hge1, hb1, hge2, hb2, fetchErrorPrints] at he
                      rcases he with h | h | h | h | h | h | h | h <;> simp [h]
                  | some fc =>
                      simp [hge1, hb1, hge2, hb2] at he
                      rcases he with h | h | h | h <;> simp [h]

/-- Each endpoint is requested at most once per run. -/
theorem gw_countGet_le_one (env : Env) (city : String) (oCur oFc : HttpResult) :
    countGet (get_weather_data env city oCur oFc).1 CURRENT_URL ≤ 1 ∧
    countGet (get_weather_data env city oCur oFc).1 FORECAST_URL ≤ 1 := by
  have hcc : (CURRENT_URL == CURRENT_URL) = true := by decide
  have hff : (FORECAST_URL == FORECAST_URL) = true := by decide
  have hcf : (CURRENT_URL == FORECAST_URL) = false := by decide
  have hfc : (FORECAST_URL == CURRENT_URL) = false := by decide
  unfold get_weather_data
  cases oCur with
  | exn m =>
      simp [fetchErrorPrints, countGet, List.countP_cons, hcc, hff, hcf, hfc]
  | resp r1 =>
      by_cases hge1 : 400 ≤ r1.status
      · simp [hge1, fetchErrorPrints, countGet, List.countP_cons, hcc, hff, hcf, hfc]
      · cases hb1 : r1.jsonBody with
        | none =>
            simp [hge1, hb1, fetchErrorPrints, countGet, List.countP_cons,
              hcc, hff, hcf, hfc]
        | some cur =>
            cases oFc with
            | exn m =>
                simp [hge1, hb1, fetchErrorPrints, countGet, List.countP_cons,
                  hcc, hff, hcf, hfc]
            | resp r2 =>
                by_cases hge2 : 400 ≤ r2.status
                · simp [hge1, hb1, hge2, fetchErrorPrints, countGet,
                    List.countP_cons, hcc, hff, hcf, hfc]
                · cases hb2 : r2.jsonBody with
                  | none =>
                      simp [hge1, hb1, hge2, hb2, fetchErrorPrints, countGet,
                        List.countP_cons, hcc, hff, hcf, hfc]
                  | some fc =>
                      simp [hge1, hb1, hge2, hb2, countGet, List.countP_cons,
                        hcc, hff, hcf, hfc]

end Whetherproject

namespace Whetherproject

theorem gw_no_savedPNG (env : Env) (city : String) (oCur oFc : HttpResult)
    (f : String) : Event.savedPNG f ∉ (get_weather_data env city oCur oFc).1 := by
  intro hmem
  rcases gw_events_shape env city oCur oFc _ hmem with ⟨a, he⟩ | ⟨a, he⟩ | ⟨m, he⟩ <;> simp_all

theorem gw_neutral (env : Env) (city : String) (oCur oFc : HttpResult) :
    ∀ e ∈ (get_weather_data env city oCur oFc).1,
      isRenderEvent e = false ∧ isPersistEvent e = false := by
  intro e he
  rcases gw_events_shape env city oCur oFc _ he with ⟨a, rfl⟩ | ⟨a, rfl⟩ | ⟨m, rfl⟩ <;>
    simp [isRenderEvent, isPersistEvent]

theorem gw_no_get_other (env : Env) (city : String) (oCur oFc : HttpResult)
    (url : String) (hu1 : url ≠ CURRENT_URL) (hu2 : url ≠ FORECAST_URL)
    (a c : String) : Event.httpGet url a c ∉ (get_weather_data env city oCur oFc).1 := by
  intro hmem
  rcases gw_events_shape env city oCur oFc _ hmem with ⟨a2, he⟩ | ⟨a2, he⟩ | ⟨m, he⟩ <;>
    simp_all

end Whetherproject


/-- C5: control flow is strictly sequential in both variants — the
transform step runs only when the fetch succeeded, rendering runs only
when the transform succeeded, persisting happens only after the render
step, and each endpoint is requested at most once per run (no retry). -/
theorem C5_sequential_pipeline :
    (∀ (ctx : Weatherproject.Ctx) (rawInput sessionCity : String)
        (buttonPressed : Bool) (t : List Event) (s : String)
        (st : Weatherproject.Steps),
      Weatherproject.main ctx rawInput sessionCity buttonPressed = some (t, s, st) →
        (st.transformRan = true → st.fetchSucceeded = true) ∧
        (st.renderRan = true → st.transformSucceeded = true) ∧
        (st.persistRan = true → st.renderRan = true) ∧
        countGet t Weatherproject.BASE_URL ≤ 1 ∧
        countGet t Weatherproject.FORECAST_URL ≤ 1 ∧
        (hasChart t → persistAfterRenderOK t = true) ∧
        (st.renderRan = true ↔ hasChart t)) ∧
    (∀ (env : Env) (city : String) (oCur oFc : HttpResult) (ft : ℚ → ℚ),
      (((Whetherproject.main env city oCur oFc ft).2.transformRan = true →
          (Whetherproject.main env city oCur oFc ft).2.fetchSucceeded = true) ∧
       ((Whetherproject.main env city oCur oFc ft).2.transformSucceeded = true →
          (Whetherproject.main env city oCur oFc ft).2.transformRan = true) ∧
       ((Whetherproject.main env city oCur oFc ft).2.renderRan = true →
          (Whetherproject.main env city oCur oFc ft).2.transformSucceeded = true) ∧
       ((Whetherproject.main env city oCur oFc ft).2.persistRan = true →
          (Whetherproject.main env city oCur oFc ft).2.renderRan = true)) ∧
      countGet (Whetherproject.main env city oCur oFc ft).1 Whetherproject.CURRENT_URL ≤ 1 ∧
      countGet (Whetherproject.main env city oCur oFc ft).1 Whetherproject.FORECAST_URL ≤ 1 ∧
      (Event.savedPNG "weather_dashboard.png" ∈ (Whetherproject.main env city oCur oFc ft).1 →
        persistAfterRenderOK (Whetherproject.main env city oCur oFc ft).1 = true)) := by
  constructor
  · intro ctx rawInput sessionCity buttonPressed t s st hmain
    unfold Weatherproject.main at hmain
    dsimp only at hmain
    split at hmain
    case isFalse =>
      replace hmain := Option.some.inj hmain
      have ht := congrArg Prod.fst hmain
      have hst := congrArg (fun p => p.2.2) hmain
      simp only at ht hst
      subst ht
      subst hst
      refine ⟨by simp [Weatherproject.noSteps], by simp [Weatherproject.noSteps],
        by simp [Weatherproject.noSteps], by simp [countGet], by simp [countGet], ?_, ?_⟩
      · intro hc
        obtain ⟨ti, hti⟩ := hc
        simp at hti
      · simp [Weatherproject.noSteps, hasChart]
    case isTrue =>
      split at hmain
      case isTrue =>
        replace hmain := Option.some.inj hmain
        have ht := congrArg Prod.fst hmain
        have hst := congrArg (fun p => p.2.2) hmain
        simp only at ht hst
        subst ht
        subst hst
        refine ⟨by simp [Weatherproject.noSteps], by simp [Weatherproject.noSteps],
          by simp [Weatherproject.noSteps], by simp [countGet], by simp [countGet], ?_, ?_⟩
        · intro hc
          obtain ⟨ti, hti⟩ := hc
          simp at hti
        · simp [Weatherproject.noSteps, hasChart]
      case isFalse =>
        split at hmain
        case isTrue =>
          replace hmain := Option.some.inj hmain
          have ht := congrArg Prod.fst hmain
          have hst := congrArg (fun p => p.2.2) hmain
          simp only at ht hst
          subst ht
          subst hst
          refine ⟨by simp [Weatherproject.noSteps], by simp [Weatherproject.noSteps],
            by simp [Weatherproject.noSteps], by simp [countGet], by simp [countGet], ?_, ?_⟩
          · intro hc
            obtain ⟨ti, hti⟩ := hc
            simp at hti
          · simp [Weatherproject.noSteps, hasChart]
        case isFalse =>
          split at hmain
          · rename_i evs heq
            replace hmain := Option.some.inj hmain
            have ht := congrArg Prod.fst hmain
            have hst := congrArg (fun p => p.2.2) hmain
            simp only at ht hst
            subst ht
            subst hst
            have hevs : evs = (Weatherproject.fetch_weather_data ctx.env ctx.oW
                (ctx.pyStrip rawInput)).1 := by rw [heq]
            refine ⟨by simp [Weatherproject.noSteps], by simp [Weatherproject.noSteps],
              by simp [Weatherproject.noSteps], ?_, ?_, ?_, ?_⟩
            · rw [hevs]
              exact Weatherproject.fw_countGet_le_one _ _ _ _
            · rw [hevs, Weatherproject.fw_countGet_forecast_zero]
              omega
            · intro hc
              obtain ⟨ti, hti⟩ := hc
              rw [hevs] at hti
              exact absurd hti (Weatherproject.fw_no_chart _ _ _ _)
            · constructor
              · intro hr
                simp [Weatherproject.noSteps] at hr
              · intro hc
                obtain ⟨ti, hti⟩ := hc
                rw [hevs] at hti
                exact absurd hti (Weatherproject.fw_no_chart _ _ _ _)
          · rename_i evs wd heq
            split at hmain
            · rename_i fevs heq2
              replace hmain := Option.some.inj hmain
              have ht := congrArg Prod.fst hmain
              have hst := congrArg (fun p => p.2.2) hmain
              simp only at ht hst
              subst ht
              subst hst
              have hevs : evs = (Weatherproject.fetch_weather_data ctx.env ctx.oW
                  (ctx.pyStrip rawInput)).1 := by rw [heq]
              have hfevs : fevs = (Weatherproject.fetch_forecast_data ctx.env ctx.oF
                  (ctx.pyStrip rawInput)).1 := by rw [heq2]
              have hnochart : ∀ ti, Event.chartShown ti ∉ evs ++ fevs := by
                intro ti hti
                rcases List.mem_append.mp hti with hm | hm
                · rw [hevs] at hm
                  exact absurd hm (Weatherproject.fw_no_chart _ _ _ _)
                · rw [hfevs] at hm
                  exact absurd hm (Weatherproject.ff_no_chart _ _ _ _)
              refine ⟨by simp [Weatherproject.noSteps], by simp [Weatherproject.noSteps],
                by simp [Weatherproject.noSteps], ?_, ?_, ?_, ?_⟩
              · rw [countGet_append, hevs, hfevs, Weatherproject.ff_countGet_base_zero]
                have := Weatherproject.fw_countGet_le_one ctx.env ctx.oW
                  (ctx.pyStrip rawInput) Weatherproject.BASE_URL
                omega
              · rw [countGet_append, hevs, hfevs, Weatherproject.fw_countGet_forecast_zero]
                have := Weatherproject.ff_countGet_le_one ctx.env ctx.oF
                  (ctx.pyStrip rawInput) Weatherproject.FORECAST_URL
                omega
              · intro hc
                obtain ⟨ti, hti⟩ := hc
                exact absurd hti (hnochart ti)
              · constructor
                · intro hr
                  simp [Weatherproject.noSteps] at hr
                · intro hc
                  obtain ⟨ti, hti⟩ := hc
                  exact absurd hti (hnochart ti)
            · rename_i fevs fd heq2
              split at hmain
              case isTrue =>
                split at hmain
                · exact absurd hmain (by simp)
                · rename_i cardEvs heqCard
                  split at hmain
                  · exact absurd hmain (by simp)
                  · rename_i fcEvs heqFc
                    split at hmain
                    · exact absurd hmain (by simp)
                    · rename_i bt bh heqMock
                      replace hmain := Option.some.inj hmain
                      have ht := congrArg Prod.fst hmain
                      have hst := congrArg (fun p => p.2.2) hmain
                      simp only at ht hst
                      subst ht
                      subst hst
                      have hevs : evs = (Weatherproject.fetch_weather_data ctx.env ctx.oW
                          (ctx.pyStrip rawInput)).1 := by rw [heq]
                      have hfevs : fevs = (Weatherproject.fetch_forecast_data ctx.env ctx.oF
                          (ctx.pyStrip rawInput)).1 := by rw [heq2]
                      have hzero : ∀ u,
                          countGet cardEvs u = 0 ∧ countGet fcEvs u = 0 ∧
                          countGet [Event.subheaderShown "📈 Historical Trends"] u = 0 ∧
                          countGet (Weatherproject.create_visualizations
                            (Weatherproject.generate_mock_history ctx.today ctx.round1
                              ctx.uniT ctx.rintH ctx.uniP bt bh)) u = 0 ∧
                          countGet [Event.downloadOffered
                            (ctx.pyStrip rawInput ++ "_weather_data.csv")] u = 0 := by
                        intro u
                        refine ⟨countGet_eq_zero_of_no_get _ _
                            (Weatherproject.card_no_get wd cardEvs heqCard),
                          countGet_eq_zero_of_no_get _ _
                            (Weatherproject.forecastSection_no_get ctx.dateOf ctx.pyLower
                              fd fcEvs heqFc), ?_, ?_, ?_⟩
                        · simp [countGet]
                        · simp [countGet, Weatherproject.create_visualizations]
                        · simp [countGet]
                      refine ⟨by simp, by simp, by simp, ?_, ?_, ?_, ?_⟩
                      · repeat rw [countGet_append]
                        obtain ⟨z1, z2, z3, z4, z5⟩ := hzero Weatherproject.BASE_URL
                        rw [z1, z2, z3, z4, z5, hevs, hfevs,
                          Weatherproject.ff_countGet_base_zero]
                        have := Weatherproject.fw_countGet_le_one ctx.env ctx.oW
                          (ctx.pyStrip rawInput) Weatherproject.BASE_URL
                        omega
                      · repeat rw [countGet_append]
                        obtain ⟨z1, z2, z3, z4, z5⟩ := hzero Weatherproject.FORECAST_URL
                        rw [z1, z2, z3, z4, z5, hevs, hfevs,
                          Weatherproject.fw_countGet_forecast_zero]
                        have := Weatherproject.ff_countGet_le_one ctx.env ctx.oF
                          (ctx.pyStrip rawInput) Weatherproject.FORECAST_URL
                        omega
                      · intro _
                        have hneutral : ∀ e ∈ evs ++ fevs ++ cardEvs ++ fcEvs
                            ++ [Event.subheaderShown "📈 Historical Trends"],
                            isRenderEvent e = false ∧ isPersistEvent e = false := by
                          intro e he
                          simp only [List.append_assoc, List.mem_append] at he
                          rcases he with hm | hm | hm | hm | hm
                          · exact Weatherproject.fw_neutral _ _ _ e (hevs ▸ hm)
                          · exact Weatherproject.ff_neutral _ _ _ e (hfevs ▸ hm)
                          · exact Weatherproject.card_neutral wd cardEvs heqCard e hm
                          · exact Weatherproject.forecastSection_neutral ctx.dateOf
                              ctx.pyLower fd fcEvs heqFc e hm
                          · simp at hm
                            subst hm
                            simp [isRenderEvent, isPersistEvent]
                        rw [show evs ++ fevs ++ cardEvs ++ fcEvs
                            ++ [Event.subheaderShown "📈 Historical Trends"]
                            ++ Weatherproject.create_visualizations
                              (Weatherproject.generate_mock_history ctx.today ctx.round1
                                ctx.uniT ctx.rintH ctx.uniP bt bh)
                            ++ [Event.downloadOffered
                              (ctx.pyStrip rawInput ++ "_weather_data.csv")] =
                            (evs ++ fevs ++ cardEvs ++ fcEvs
                              ++ [Event.subheaderShown "📈 Historical Trends"])
                            ++ (Weatherproject.create_visualizations
                                (Weatherproject.generate_mock_history ctx.today ctx.round1
                                  ctx.uniT ctx.rintH ctx.uniP bt bh)
                              ++ [Event.downloadOffered
                                (ctx.pyStrip rawInput ++ "_weather_data.csv")]) from by
                          simp [List.append_assoc]]
                        rw [persistAfterRenderOK_append_neutral _ _ hneutral]
                        rfl
                      · constructor
                        · intro _
                          refine ⟨"Temperature Trends", ?_⟩
                          simp [Weatherproject.create_visualizations]
                        · intro _
                          rfl
              case isFalse =>
                replace hmain := Option.some.inj hmain
                have ht := congrArg Prod.fst hmain
                have hst := congrArg (fun p => p.2.2) hmain
                simp only at ht hst
                subst ht
                subst hst
                have hevs : evs = (Weatherproject.fetch_weather_data ctx.env ctx.oW
                    (ctx.pyStrip rawInput)).1 := by rw [heq]
                have hfevs : fevs = (Weatherproject.fetch_forecast_data ctx.env ctx.oF
                    (ctx.pyStrip rawInput)).1 := by rw [heq2]
                have hnochart : ∀ ti, Event.chartShown ti ∉ evs ++ fevs := by
                  intro ti hti
                  rcases List.mem_append.mp hti with hm | hm
                  · rw [hevs] at hm
                    exact absurd hm (Weatherproject.fw_no_chart _ _ _ _)
                  · rw [hfevs] at hm
                    exact absurd hm (Weatherproject.ff_no_chart _ _ _ _)
                refine ⟨by simp [Weatherproject.noSteps], by simp [Weatherproject.noSteps],
                  by simp [Weatherproject.noSteps], ?_, ?_, ?_, ?_⟩
                · rw [countGet_append, hevs, hfevs, Weatherproject.ff_countGet_base_zero]
                  have := Weatherproject.fw_countGet_le_one ctx.env ctx.oW
                    (ctx.pyStrip rawInput) Weatherproject.BASE_URL
                  omega
                · rw [countGet_append, hevs, hfevs,
                    Weatherproject.fw_countGet_forecast_zero]
                  have := Weatherproject.ff_countGet_le_one ctx.env ctx.oF
                    (ctx.pyStrip rawInput) Weatherproject.FORECAST_URL
                  omega
                · intro hc
                  obtain ⟨ti, hti⟩ := hc
                  exact absurd hti (hnochart ti)
                · constructor
                  · intro hr
                    simp [Weatherproject.noSteps] at hr
                  · intro hc
                    obtain ⟨ti, hti⟩ := hc
                    exact absurd hti (hnochart ti)
  · intro env city oCur oFc ft
    obtain ⟨hc1, hc2⟩ := Whetherproject.gw_countGet_le_one env city oCur oFc
    unfold Whetherproject.main
    dsimp only
    split
    · rename_i fevs cur fc heq
      have hfevs : fevs = (Whetherproject.get_weather_data env city oCur oFc).1 := by
        rw [heq]
      by_cases htr : cur.truthy && fc.truthy
      · rw [if_pos htr]
        split
        next cdf fdf heqpd =>
            by_cases hemp : fdf.isEmpty
            · refine ⟨⟨by simp, by simp, by simp, by simp⟩, ?_, ?_, ?_⟩
              · simp only [Whetherproject.create_visualizations, hemp, if_true]
                repeat rw [countGet_append]
                rw [hfevs]
                simp [countGet]
                simpa [countGet] using hc1
              · simp only [Whetherproject.create_visualizations, hemp, if_true]
                repeat rw [countGet_append]
                rw [hfevs]
                simp [countGet]
                simpa [countGet] using hc2
              · intro hmem
                simp only [Whetherproject.create_visualizations, hemp, if_true,
                  List.append_assoc, List.mem_append] at hmem
                rcases hmem with hm | hm | hm | hm | hm
                · simp at hm
                · rw [hfevs] at hm
                  exact absurd hm (Whetherproject.gw_no_savedPNG _ _ _ _ _)
                · simp at hm
                · simp at hm
                · simp at hm
            · refine ⟨⟨by simp, by simp, by simp, by simp⟩, ?_, ?_, ?_⟩
              · simp only [Whetherproject.create_visualizations, hemp, Bool.false_eq_true, if_false]
                repeat rw [countGet_append]
                rw [hfevs]
                simp [countGet]
                simpa [countGet] using hc1
              · simp only [Whetherproject.create_visualizations, hemp, Bool.false_eq_true, if_false]
                repeat rw [countGet_append]
                rw [hfevs]
                simp [countGet]
                simpa [countGet] using hc2
              · intro _
                have hneutral : ∀ e ∈
                    [Event.printed "=== Weather Dashboard Program ==="] ++ fevs,
                    isRenderEvent e = false ∧ isPersistEvent e = false := by
                  intro e he
                  rcases List.mem_append.mp he with hm | hm
                  · simp at hm
                    subst hm
                    simp [isRenderEvent, isPersistEvent]
                  · exact Whetherproject.gw_neutral env city oCur oFc e (hfevs ▸ hm)
                simp only [Whetherproject.create_visualizations, hemp, Bool.false_eq_true, if_false]
                rw [show [Event.printed "=== Weather Dashboard Program ==="] ++ fevs
                    ++ [Event.savedPNG "weather_dashboard.png",
                        Event.printed "Dashboard saved as weather_dashboard.png.",
                        Event.plotWindowShown]
                    ++ [Event.savedCSV "current_weather.csv",
                        Event.savedCSV "weather_forecast.csv",
                        Event.printed "Data saved as current_weather.csv and weather_forecast.csv."]
                    ++ [Event.printed "Program completed. Check your files and visualizations."] =
                    ([Event.printed "=== Weather Dashboard Program ==="] ++ fevs)
                    ++ (Event.savedPNG "weather_dashboard.png" ::
                        ([Event.printed "Dashboard saved as weather_dashboard.png.",
                          Event.plotWindowShown]
                        ++ [Event.savedCSV "current_weather.csv",
                            Event.savedCSV "weather_forecast.csv",
                            Event.printed "Data saved as current_weather.csv and weather_forecast.csv."]
                        ++ [Event.printed "Program completed. Check your files and visualizations."])) from by
                  simp]
                rw [persistAfterRenderOK_append_neutral _ _ hneutral]
                rfl
        next =>
            refine ⟨⟨by simp, by simp, by simp, by simp⟩, ?_, ?_, ?_⟩
            · rw [countGet_append, countGet_append, countGet_append, hfevs]
              simp [countGet]
              simpa [countGet] using hc1
            · rw [countGet_append, countGet_append, countGet_append, hfevs]
              simp [countGet]
              simpa [countGet] using hc2
            · intro hmem
              simp only [List.append_assoc, List.mem_append] at hmem
              rcases hmem with hm | hm | hm
              · simp at hm
              · rw [hfevs] at hm
                exact absurd hm (Whetherproject.gw_no_savedPNG _ _ _ _ _)
              · simp at hm
      · rw [if_neg htr]
        refine ⟨⟨by simp, by simp, by simp, by simp⟩, ?_, ?_, ?_⟩
        · rw [countGet_append, countGet_append, hfevs]
          simp [countGet]
          simpa [countGet] using hc1
        · rw [countGet_append, countGet_append, hfevs]
          simp [countGet]
          simpa [countGet] using hc2
        · intro hmem
          simp only [List.append_assoc, List.mem_append] at hmem
          rcases hmem with hm | hm | hm
          · simp at hm
          · rw [hfevs] at hm
            exact absurd hm (Whetherproject.gw_no_savedPNG _ _ _ _ _)
          · simp at hm
    · rename_i fevs x heq
      have hfevs : fevs = (Whetherproject.get_weather_data env city oCur oFc).1 := by
        rw [heq]
      refine ⟨⟨by simp, by simp, by simp, by simp⟩, ?_, ?_, ?_⟩
      · rw [countGet_append, countGet_append, hfevs]
        simp [countGet]
        simpa [countGet] using hc1
      · rw [countGet_append, countGet_append, hfevs]
        simp [countGet]
        simpa [countGet] using hc2
      · intro hmem
        simp only [List.append_assoc, List.mem_append] at hmem
        rcases hmem with hm | hm | hm
        · simp at hm
        · rw [hfevs] at hm
          exact absurd hm (Whetherproject.gw_no_savedPNG _ _ _ _ _)
        · simp at hm
    · rename_i fevs x heq
      have hfevs : fevs = (Whetherproject.get_weather_data env city oCur oFc).1 := by
        rw [heq]
      refine ⟨⟨by simp, by simp, by simp, by simp⟩, ?_, ?_, ?_⟩
      · rw [countGet_append, countGet_append, hfevs]
        simp [countGet]
        simpa [countGet] using hc1
      · rw [countGet_append, countGet_append, hfevs]
        simp [countGet]
        simpa [countGet] using hc2
      · intro hmem
        simp only [List.append_assoc, List.mem_append] at hmem
        rcases hmem with hm | hm | hm
        · simp at hm
        · rw [hfevs] at hm
          exact absurd hm (Whetherproject.gw_no_savedPNG _ _ _ _ _)
        · simp at hm
    · rename_i fevs heq
      have hfevs : fevs = (Whetherproject.get_weather_data env city oCur oFc).1 := by
        rw [heq]
      refine ⟨⟨by simp, by simp, by simp, by simp⟩, ?_, ?_, ?_⟩
      · rw [countGet_append, countGet_append, hfevs]
        simp [countGet]
        simpa [countGet] using hc1
      · rw [countGet_append, countGet_append, hfevs]
        simp [countGet]
        simpa [countGet] using hc2
      · intro hmem
        simp only [List.append_assoc, List.mem_append] at hmem
        rcases hmem with hm | hm | hm
        · simp at hm
        · rw [hfevs] at hm
          exact absurd hm (Whetherproject.gw_no_savedPNG _ _ _ _ _)
        · simp at hm

/-- C5 witness: on the sample interactive run the pipeline order holds —
the chart renders, the persist step follows it, and each endpoint is hit
once. -/
theorem C5_witness :
    ∃ t s st, Weatherproject.main sampleCtx "London" "Paris" true = some (t, s, st) ∧
      countGet t Weatherproject.BASE_URL ≤ 1 ∧
      countGet t Weatherproject.FORECAST_URL ≤ 1 ∧
      (st.renderRan = true ↔ hasChart t) := by
  rcases hmain : Weatherproject.main sampleCtx "London" "Paris" true with _ | ⟨t, s, st⟩
  · exact absurd hmain (by decide)
  · obtain ⟨_, _, _, hb, hf, _, hiff⟩ :=
      (C5_sequential_pipeline.1 sampleCtx "London" "Paris" true t s st) hmain
    exact ⟨t, s, st, rfl, hb, hf, hiff⟩

namespace Weatherproject

/-- With a missing/empty key, either fetch shows the key error and
stops before issuing any request. -/
theorem fw_keymissing (env : Env) (o : HttpResult) (city : String)
    (h : env "OPENWEATHER_API_KEY" = none ∨ env "OPENWEATHER_API_KEY" = some "") :
    fetch_weather_data env o city = ([.stError apiKeyErrorMsg, .stStop], .stopped) := by
  unfold fetch_weather_data get_api_key
  rcases h with h | h <;> rw [h] <;> simp

/-- HTTP 404 with a configured key: one GET, the warning, result `None`. -/
theorem fw_404_eq (env : Env) (r : HttpResponse) (city k : String)
    (hk : env "OPENWEATHER_API_KEY" = some k) (hne : k ≠ "")
    (h404 : r.status = 404) :
    fetch_weather_data env (.resp r) city =
      ([.httpGet BASE_URL k city, .stWarning cityNotFoundMsg], .ok none) := by
  unfold fetch_weather_data get_api_key
  rw [hk]
  simp [hne, h404]

/-- A non-404 request failure with a configured key: one GET, an error,
and a stop. -/
theorem fw_fail_non404 (env : Env) (o : HttpResult) (city k : String)
    (hk : env "OPENWEATHER_API_KEY" = some k) (hne : k ≠ "")
    (hfail : o.failsAsRequestError) (h404 : ∀ r, o = .resp r → r.status ≠ 404) :
    ∃ m, fetch_weather_data env o city =
      ([.httpGet BASE_URL k city, .stError m, .stStop], .stopped) := by
  unfold fetch_weather_data get_api_key
  rw [hk]
  cases o with
  | exn m =>
      exact ⟨"⚠️ An unexpected error occurred: " ++ m, by simp [hne]⟩
  | resp r =>
      have hr404 := h404 r rfl
      rcases hfail with hge | hb
      · exact ⟨"⚠️ An unexpected error occurred: " ++ httpErrorText r.status,
          by simp [hne, hr404, hge]⟩
      · by_cases hge : 400 ≤ r.status
        · exact ⟨"⚠️ An unexpected error occurred: " ++ httpErrorText r.status,
            by simp [hne, hr404, hge]⟩
        · exact ⟨"⚠️ An unexpected error occurred: " ++ jsonDecodeErrorText,
            by simp [hne, hr404, hge, hb]⟩

/-- A successful weather fetch: one GET and the parsed body. -/
theorem fw_success_eq (env : Env) (r : HttpResponse) (city k : String) (w : Json)
    (hk : env "OPENWEATHER_API_KEY" = some k) (hne : k ≠ "")
    (h404 : r.status ≠ 404) (hge : ¬ 400 ≤ r.status) (hb : r.jsonBody = some w) :
    fetch_weather_data env (.resp r) city =
      ([.httpGet BASE_URL k city], .ok (some w)) := by
  unfold fetch_weather_data get_api_key
  rw [hk]
  simp [hne, h404, hge, hb]

/-- With a configured key the forecast fetch never stops. -/
theorem ff_never_stops (env : Env) (o : HttpResult) (city k : String)
    (hk : env "OPENWEATHER_API_KEY" = some k) (hne : k ≠ "") :
    ∀ t, fetch_forecast_data env o city ≠ (t, .stopped) := by
  intro t hc
  unfold fetch_forecast_data get_api_key at hc
  rw [hk] at hc
  cases o with
  | exn m => simp [hne] at hc
  | resp r =>
      by_cases hge : 400 ≤ r.status
      · simp [hne, hge] at hc
      · cases hb : r.jsonBody with
        | some j => simp [hne, hge, hb] at hc
        | none => simp [hne, hge, hb] at hc

theorem fw_no_download (env : Env) (o : HttpResult) (city f : String) :
    Event.downloadOffered f ∉ (fetch_weather_data env o city).1 := by
  intro hmem
  rcases fw_events_shape env o city _ hmem with ⟨a2, he⟩ | he | ⟨m, he⟩ | he <;> simp_all

theorem ff_no_download (env : Env) (o : HttpResult) (city f : String) :
    Event.downloadOffered f ∉ (fetch_forecast_data env o city).1 := by
  intro hmem
  rcases ff_events_shape env o city _ hmem with ⟨a2, he⟩ | ⟨m, he⟩ | ⟨m, he⟩ | he <;> simp_all

/-- The forecast-failure warning is never the city-not-found warning
(the texts differ at their second character). -/
theorem ff_warning_ne_city (m : String) :
    "Couldn\x27t fetch forecast data: " ++ m ≠ cityNotFoundMsg := by
  intro h
  have hd : ("Couldn\x27t fetch forecast data: ").data ++ m.data = cityNotFoundMsg.data := by
    rw [← String.data_append, h]
  have h1 : (("Couldn\x27t fetch forecast data: ").data ++ m.data)[1]? =
      cityNotFoundMsg.data[1]? := by rw [hd]
  rw [List.getElem?_append_left (by decide)] at h1
  exact absurd h1 (by decide)

end Weatherproject

namespace Whetherproject

/-- A request failure on either call prints the fetch error and yields
`(None, None)`. -/
theorem gw_fail (env : Env) (city : String) (oCur oFc : HttpResult)
    (h : oCur.failsAsRequestError ∨ oFc.failsAsRequestError) :
    (∃ m, Event.printed ("ERROR: Failed to fetch data " ++ m) ∈
      (get_weather_data env city oCur oFc).1) ∧
    (get_weather_data env city oCur oFc).2 = (none, none) := by
  unfold get_weather_data
  cases oCur with
  | exn m => exact ⟨⟨m, by simp [fetchErrorPrints]⟩, by simp⟩
  | resp r1 =>
      by_cases hge1 : 400 ≤ r1.status
      · exact ⟨⟨Weatherproject.httpErrorText r1.status,
          by simp [hge1, fetchErrorPrints]⟩, by simp [hge1]⟩
      · cases hb1 : r1.jsonBody with
        | none =>
            exact ⟨⟨Weatherproject.jsonDecodeErrorText,
              by simp [hge1, hb1, fetchErrorPrints]⟩, by simp [hge1, hb1]⟩
        | some cur =>
            have h2 : oFc.failsAsRequestError := by
              rcases h with h | h
              · exact absurd h (by simp [HttpResult.failsAsRequestError, hge1, hb1])
              · exact h
            cases oFc with
            | exn m => exact ⟨⟨m, by simp [hge1, hb1, fetchErrorPrints]⟩, by simp [hge1, hb1]⟩
            | resp r2 =>
                rcases h2 with hge2 | hb2
                · exact ⟨⟨Weatherproject.httpErrorText r2.status,
                    by simp [hge1, hb1, hge2, fetchErrorPrints]⟩,
                    by simp [hge1, hb1, hge2]⟩
                · by_cases hge2 : 400 ≤ r2.status
                  · exact ⟨⟨Weatherproject.httpErrorText r2.status,
                      by simp [hge1, hb1, hge2, fetchErrorPrints]⟩,
                      by simp [hge1, hb1, hge2]⟩
                  · exact ⟨⟨Weatherproject.jsonDecodeErrorText,
                      by simp [hge1, hb1, hge2, hb2, fetchErrorPrints]⟩,
                      by simp [hge1, hb1, hge2, hb2]⟩

/-- A fully successful pair of calls: the two GETs and both bodies. -/
theorem gw_success (env : Env) (city : String) (r1 r2 : HttpResponse) (cur fc : Json)
    (hge1 : ¬ 400 ≤ r1.status) (hb1 : r1.jsonBody = some cur)
    (hge2 : ¬ 400 ≤ r2.status) (hb2 : r2.jsonBody = some fc) :
    get_weather_data env city (.resp r1) (.resp r2) =
      ([.printed ("Fetching weather data for " ++ city),
        .httpGet CURRENT_URL (apiKeyString env) city,
        .httpGet FORECAST_URL (apiKeyString env) city,
        .printed "Data fetched successfully."], (some cur, some fc)) := by
  unfold get_weather_data
  simp [hge1, hb1, hge2, hb2]

theorem gw_no_savedCSV (env : Env) (city : String) (oCur oFc : HttpResult)
    (f : String) : Event.savedCSV f ∉ (get_weather_data env city oCur oFc).1 := by
  intro hmem
  rcases gw_events_shape env city oCur oFc _ hmem with ⟨a, he⟩ | ⟨a, he⟩ | ⟨m, he⟩ <;> simp_all

theorem gw_no_plot (env : Env) (city : String) (oCur oFc : HttpResult) :
    Event.plotWindowShown ∉ (get_weather_data env city oCur oFc).1 := by
  intro hmem
  rcases gw_events_shape env city oCur oFc _ hmem with ⟨a, he⟩ | ⟨a, he⟩ | ⟨m, he⟩ <;> simp_all

end Whetherproject

def sampleCtxNoKey : Weatherproject.Ctx :=
  { sampleCtx with env := fun _ => none }

/-- C2: observable output contract — a missing API key shows the
"API key not configured" error and stops; HTTP 404 shows the
"City not found" warning and renders no chart; any other failure of the
weather call shows an error and stops processing with no chart; a
successful fetch renders the charts and offers the CSV download; a
rendered chart never coexists with an error, a stop, or the
city-not-found warning; in the batch variant a request failure prints
the fetch error and produces neither plot nor CSV, while success saves
the dashboard PNG and both CSVs. -/
theorem C2_output_contract :
    (∀ (ctx : Weatherproject.Ctx) (rawInput sessionCity : String) (b : Bool),
      (b || ctx.pyStrip rawInput != sessionCity) = true →
      ctx.pyStrip rawInput ≠ "" →
      Weatherproject.validChars ctx (ctx.pyStrip rawInput) = true →
      (ctx.env "OPENWEATHER_API_KEY" = none ∨ ctx.env "OPENWEATHER_API_KEY" = some "") →
      Weatherproject.main ctx rawInput sessionCity b =
        some ([.stError Weatherproject.apiKeyErrorMsg, .stStop], sessionCity,
          Weatherproject.noSteps)) ∧
    (∀ (ctx : Weatherproject.Ctx) (rawInput sessionCity : String) (b : Bool)
        (k : String) (r : HttpResponse),
      (b || ctx.pyStrip rawInput != sessionCity) = true →
      ctx.pyStrip rawInput ≠ "" →
      Weatherproject.validChars ctx (ctx.pyStrip rawInput) = true →
      ctx.env "OPENWEATHER_API_KEY" = some k → k ≠ "" →
      ctx.oW = .resp r → r.status = 404 →
      ∃ t, Weatherproject.main ctx rawInput sessionCity b =
          some (t, sessionCity, Weatherproject.noSteps) ∧
        Event.stWarning Weatherproject.cityNotFoundMsg ∈ t ∧ ¬hasChart t ∧
        ∀ f, Event.downloadOffered f ∉ t) ∧
    (∀ (ctx : Weatherproject.Ctx) (rawInput sessionCity : String) (b : Bool)
        (k : String),
      (b || ctx.pyStrip rawInput != sessionCity) = true →
      ctx.pyStrip rawInput ≠ "" →
      Weatherproject.validChars ctx (ctx.pyStrip rawInput) = true →
      ctx.env "OPENWEATHER_API_KEY" = some k → k ≠ "" →
      ctx.oW.failsAsRequestError →
      (∀ r, ctx.oW = .resp r → r.status ≠ 404) →
      ∃ t, Weatherproject.main ctx rawInput sessionCity b =
          some (t, sessionCity, Weatherproject.noSteps) ∧
        (∃ m, Event.stError m ∈ t) ∧ Event.stStop ∈ t ∧ ¬hasChart t ∧
        ∀ f, Event.downloadOffered f ∉ t) ∧
    (∀ (ctx : Weatherproject.Ctx) (rawInput sessionCity : String) (b : Bool)
        (k : String) (r : HttpResponse) (w : Json) (t : List Event) (s : String)
        (st : Weatherproject.Steps),
      Weatherproject.main ctx rawInput sessionCity b = some (t, s, st) →
      (b || ctx.pyStrip rawInput != sessionCity) = true →
      ctx.pyStrip rawInput ≠ "" →
      Weatherproject.validChars ctx (ctx.pyStrip rawInput) = true →
      ctx.env "OPENWEATHER_API_KEY" = some k → k ≠ "" →
      ctx.oW = .resp r → r.status ≠ 404 → ¬ 400 ≤ r.status →
      r.jsonBody = some w → w.truthy = true →
      hasChart t ∧
      Event.downloadOffered (ctx.pyStrip rawInput ++ "_weather_data.csv") ∈ t ∧
      s = ctx.pyStrip rawInput) ∧
    (∀ (ctx : Weatherproject.Ctx) (rawInput sessionCity : String) (b : Bool)
        (t : List Event) (s : String) (st : Weatherproject.Steps),
      Weatherproject.main ctx rawInput sessionCity b = some (t, s, st) →
      hasChart t →
      (∀ m, Event.stError m ∉ t) ∧ Event.stStop ∉ t ∧
      Event.stWarning Weatherproject.cityNotFoundMsg ∉ t) ∧
    (∀ (env : Env) (city : String) (oCur oFc : HttpResult) (ft : ℚ → ℚ),
      oCur.failsAsRequestError ∨ oFc.failsAsRequestError →
      (∃ m, Event.printed ("ERROR: Failed to fetch data " ++ m) ∈
        (Whetherproject.main env city oCur oFc ft).1) ∧
      (∀ f, Event.savedPNG f ∉ (Whetherproject.main env city oCur oFc ft).1) ∧
      Event.plotWindowShown ∉ (Whetherproject.main env city oCur oFc ft).1 ∧
      (∀ f, Event.savedCSV f ∉ (Whetherproject.main env city oCur oFc ft).1)) ∧
    (∀ (env : Env) (city : String) (r1 r2 : HttpResponse) (cur fc : Json)
        (ft : ℚ → ℚ) (cdf : Whetherproject.Row) (fdf : List Whetherproject.Row),
      ¬ 400 ≤ r1.status → r1.jsonBody = some cur →
      ¬ 400 ≤ r2.status → r2.jsonBody = some fc →
      cur.truthy = true → fc.truthy = true →
      Whetherproject.process_data ft cur fc = some (cdf, fdf) → fdf ≠ [] →
      Event.savedPNG "weather_dashboard.png" ∈
        (Whetherproject.main env city (.resp r1) (.resp r2) ft).1 ∧
      Event.savedCSV "current_weather.csv" ∈
        (Whetherproject.main env city (.resp r1) (.resp r2) ft).1 ∧
      Event.savedCSV "weather_forecast.csv" ∈
        (Whetherproject.main env city (.resp r1) (.resp r2) ft).1) := by
  refine ⟨?_, ?_, ?_, ?_, ?_, ?_, ?_⟩
  · intro ctx rawInput sessionCity b hguard hne hval hkey
    unfold Weatherproject.main
    dsimp only
    rw [if_pos hguard, if_neg hne, if_neg (by simp [hval]),
      Weatherproject.fw_keymissing ctx.env ctx.oW _ hkey]
  · intro ctx rawInput sessionCity b k r hguard hne hval hk hkne hoW h404
    unfold Weatherproject.main
    dsimp only
    rw [if_pos hguard, if_neg hne, if_neg (by simp [hval]), hoW,
      Weatherproject.fw_404_eq ctx.env r _ k hk hkne h404]
    rcases hff : Weatherproject.fetch_forecast_data ctx.env ctx.oF
        (ctx.pyStrip rawInput) with ⟨fevs, fres⟩
    have hfevs : fevs = (Weatherproject.fetch_forecast_data ctx.env ctx.oF
        (ctx.pyStrip rawInput)).1 := by rw [hff]
    have hfprops : (∀ ti, Event.chartShown ti ∉ fevs) ∧
        (∀ f, Event.downloadOffered f ∉ fevs) := by
      constructor
      · intro ti hti
        rw [hfevs] at hti
        exact absurd hti (Weatherproject.ff_no_chart _ _ _ _)
      · intro f hf
        rw [hfevs] at hf
        exact absurd hf (Weatherproject.ff_no_download _ _ _ _)
    cases fres with
    | stopped =>
        refine ⟨[.httpGet Weatherproject.BASE_URL k (ctx.pyStrip rawInput),
          .stWarning Weatherproject.cityNotFoundMsg] ++ fevs, by rfl, by simp, ?_, ?_⟩
        · intro hc
          obtain ⟨ti, hti⟩ := hc
          rcases List.mem_append.mp hti with hm | hm
          · simp at hm
          · exact absurd hm (hfprops.1 ti)
        · intro f hf
          rcases List.mem_append.mp hf with hm | hm
          · simp at hm
          · exact absurd hm (hfprops.2 f)
    | ok fd =>
        refine ⟨[.httpGet Weatherproject.BASE_URL k (ctx.pyStrip rawInput),
          .stWarning Weatherproject.cityNotFoundMsg] ++ fevs, by rfl, by simp, ?_, ?_⟩
        · intro hc
          obtain ⟨ti, hti⟩ := hc
          rcases List.mem_append.mp hti with hm | hm
          · simp at hm
          · exact absurd hm (hfprops.1 ti)
        · intro f hf
          rcases List.mem_append.mp hf with hm | hm
          · simp at hm
          · exact absurd hm (hfprops.2 f)
  · intro ctx rawInput sessionCity b k hguard hne hval hk hkne hfail h404
    obtain ⟨m, hfw⟩ := Weatherproject.fw_fail_non404 ctx.env ctx.oW
      (ctx.pyStrip rawInput) k hk hkne hfail h404
    unfold Weatherproject.main
    dsimp only
    rw [if_pos hguard, if_neg hne, if_neg (by simp [hval]), hfw]
    refine ⟨_, rfl, ⟨m, by simp⟩, by simp, ?_, ?_⟩
    · intro hc
      obtain ⟨ti, hti⟩ := hc
      simp at hti
    · intro f hf
      simp at hf
  · intro ctx rawInput sessionCity b k r w t s st hmain hguard hne hval hk hkne
      hoW h404 hge hb htr
    have hfw := Weatherproject.fw_success_eq ctx.env r (ctx.pyStrip rawInput) k w
      hk hkne h404 hge hb
    rw [← hoW] at hfw
    unfold Weatherproject.main at hmain
    dsimp only at hmain
    rw [if_pos hguard, if_neg hne, if_neg (by simp [hval])] at hmain
    split at hmain
    · rename_i evs heq
      rw [hfw] at heq
      simp at heq
    · rename_i evs wd heq
      rw [hfw] at heq
      have heq2 : evs = [Event.httpGet Weatherproject.BASE_URL k
          (ctx.pyStrip rawInput)] ∧ wd = some w := by
        have h2 := heq
        simp at h2
        exact ⟨h2.1.symm, h2.2.symm⟩
      obtain ⟨hevs, hwd⟩ := heq2
      split at hmain
      · rename_i fevs heqf
        exact absurd heqf (Weatherproject.ff_never_stops ctx.env ctx.oF _ k hk hkne fevs)
      · rename_i fevs fd heqf
        split at hmain
        case isFalse hnt =>
            rw [hwd] at hnt
            simp [truthyOpt, htr] at hnt
        case isTrue =>
          split at hmain
          · exact absurd hmain (by simp)
          · rename_i cardEvs heqCard
            split at hmain
            · exact absurd hmain (by simp)
            · rename_i fcEvs heqFc
              split at hmain
              · exact absurd hmain (by simp)
              · rename_i bt bh heqMock
                replace hmain := Option.some.inj hmain
                have ht := congrArg Prod.fst hmain
                have hs := congrArg (fun p => p.2.1) hmain
                simp only at ht hs
                subst ht
                refine ⟨⟨"Temperature Trends", ?_⟩, ?_, hs.symm⟩
                · simp [Weatherproject.create_visualizations]
                · simp [Weatherproject.create_visualizations]
  · intro ctx rawInput sessionCity b t s st hmain hchart
    unfold Weatherproject.main at hmain
    dsimp only at hmain
    split at hmain
    case isFalse =>
      replace hmain := Option.some.inj hmain
      have ht := congrArg Prod.fst hmain
      simp only at ht
      subst ht
      obtain ⟨ti, hti⟩ := hchart
      simp at hti
    case isTrue =>
      split at hmain
      case isTrue =>
        replace hmain := Option.some.inj hmain
        have ht := congrArg Prod.fst hmain
        simp only at ht
        subst ht
        obtain ⟨ti, hti⟩ := hchart
        simp at hti
      case isFalse =>
        split at hmain
        case isTrue =>
          replace hmain := Option.some.inj hmain
          have ht := congrArg Prod.fst hmain
          simp only at ht
          subst ht
          obtain ⟨ti, hti⟩ := hchart
          simp at hti
        case isFalse =>
          split at hmain
          · rename_i evs heq
            replace hmain := Option.some.inj hmain
            have ht := congrArg Prod.fst hmain
            simp only at ht
            subst ht
            obtain ⟨ti, hti⟩ := hchart
            have hevs : evs = (Weatherproject.fetch_weather_data ctx.env ctx.oW
                (ctx.pyStrip rawInput)).1 := by rw [heq]
            rw [hevs] at hti
            exact absurd hti (Weatherproject.fw_no_chart _ _ _ _)
          · rename_i evs wd heq
            split at hmain
            · rename_i fevs heqf
              replace hmain := Option.some.inj hmain
              have ht := congrArg Prod.fst hmain
              simp only at ht
              subst ht
              obtain ⟨ti, hti⟩ := hchart
              have hevs : evs = (Weatherproject.fetch_weather_data ctx.env ctx.oW
                  (ctx.pyStrip rawInput)).1 := by rw [heq]
              have hfevs : fevs = (Weatherproject.fetch_forecast_data ctx.env ctx.oF
                  (ctx.pyStrip rawInput)).1 := by rw [heqf]
              rcases List.mem_append.mp hti with hm | hm
              · rw [hevs] at hm
                exact absurd hm (Weatherproject.fw_no_chart _ _ _ _)
              · rw [hfevs] at hm
                exact absurd hm (Weatherproject.ff_no_chart _ _ _ _)
            · rename_i fevs fd heqf
              split at hmain
              case isFalse =>
                replace hmain := Option.some.inj hmain
                have ht := congrArg Prod.fst hmain
                simp only at ht
                subst ht
                obtain ⟨ti, hti⟩ := hchart
                have hevs : evs = (Weatherproject.fetch_weather_data ctx.env ctx.oW
                    (ctx.pyStrip rawInput)).1 := by rw [heq]
                have hfevs : fevs = (Weatherproject.fetch_forecast_data ctx.env ctx.oF
                    (ctx.pyStrip rawInput)).1 := by rw [heqf]
                rcases List.mem_append.mp hti with hm | hm
                · rw [hevs] at hm
                  exact absurd hm (Weatherproject.fw_no_chart _ _ _ _)
                · rw [hfevs] at hm
                  exact absurd hm (Weatherproject.ff_no_chart _ _ _ _)
              case isTrue htruthy =>
                split at hmain
                · exact absurd hmain (by simp)
                · rename_i cardEvs heqCard
                  split at hmain
                  · exact absurd hmain (by simp)
                  · rename_i fcEvs heqFc
                    split at hmain
                    · exact absurd hmain (by simp)
                    · rename_i bt bh heqMock
                      replace hmain := Option.some.inj hmain
                      have ht := congrArg Prod.fst hmain
                      simp only at ht
                      subst ht
                      have hwd : ∃ j, wd = some j := by
                        cases wd with
                        | none => simp [truthyOpt] at htruthy
                        | some j => exact ⟨j, rfl⟩
                      obtain ⟨j, hj⟩ := hwd
                      subst hj
                      obtain ⟨a, hevs⟩ :=
                        Weatherproject.fw_ok_some_trace ctx.env ctx.oW
                          (ctx.pyStrip rawInput) evs j heq
                      have hffstruct := Weatherproject.ff_ok_trace ctx.env ctx.oF
                        (ctx.pyStrip rawInput) fevs fd heqf
                      have hnot : ∀ e, e ∈ evs ++ fevs ++ cardEvs ++ fcEvs
                          ++ [Event.subheaderShown "📈 Historical Trends"]
                          ++ Weatherproject.create_visualizations
                            (Weatherproject.generate_mock_history ctx.today ctx.round1
                              ctx.uniT ctx.rintH ctx.uniP bt bh)
                          ++ [Event.downloadOffered
                            (ctx.pyStrip rawInput ++ "_weather_data.csv")] →
                          (∀ m, e ≠ .stError m) ∧ e ≠ .stStop ∧
                          e ≠ .stWarning Weatherproject.cityNotFoundMsg := by
                        intro e he
                        simp only [List.append_assoc, List.mem_append,
                          List.mem_singleton] at he
                        rcases he with hm | hm | hm | hm | rfl | hm | rfl
                        · rw [hevs] at hm
                          simp at hm
                          subst hm
                          exact ⟨by simp, by simp, by simp⟩
                        · rcases hffstruct e hm with ⟨a2, rfl⟩ | ⟨m2, rfl⟩
                          · exact ⟨by simp, by simp, by simp⟩
                          · refine ⟨by simp, by simp, ?_⟩
                            intro hc
                            simp at hc
                            exact Weatherproject.ff_warning_ne_city m2 hc
                        · rcases Weatherproject.card_events_cases _ _ heqCard with rfl | rfl
                          · simp at hm
                          · simp at hm
                            rcases hm with rfl | rfl | rfl | rfl | rfl | rfl | rfl | rfl | rfl | rfl <;>
                              exact ⟨by simp, by simp, by simp⟩
                        · rcases Weatherproject.forecastSection_events ctx.dateOf
                              ctx.pyLower fd fcEvs heqFc e hm with rfl | ⟨l, rfl⟩ <;>
                            exact ⟨by simp, by simp, by simp⟩
                        · exact ⟨by simp, by simp, by simp⟩
                        · simp [Weatherproject.create_visualizations] at hm
                          rcases hm with rfl | rfl | rfl <;>
                            exact ⟨by simp, by simp, by simp⟩
                        · exact ⟨by simp, by simp, by simp⟩
                      refine ⟨?_, ?_, ?_⟩
                      · intro m hmem
                        exact absurd rfl ((hnot _ hmem).1 m)
                      · intro hmem
                        exact absurd rfl (hnot _ hmem).2.1
                      · intro hmem
                        exact absurd rfl (hnot _ hmem).2.2
  · intro env city oCur oFc ft hfails
    obtain ⟨⟨m, hm⟩, hres⟩ := Whetherproject.gw_fail env city oCur oFc hfails
    unfold Whetherproject.main
    dsimp only
    rcases hg : Whetherproject.get_weather_data env city oCur oFc with ⟨fevs, c?, f?⟩
    rw [hg] at hres
    simp at hres
    obtain ⟨hc, hf⟩ := hres
    subst hc
    subst hf
    rw [hg] at hm
    simp at hm
    have hshapes := Whetherproject.gw_events_shape env city oCur oFc
    refine ⟨⟨m, by simp [hm]⟩, ?_, ?_, ?_⟩
    · intro f hf
      simp only [List.mem_append, List.mem_cons, List.not_mem_nil, or_false,
        reduceCtorEq, false_or] at hf
      rcases hshapes _ (by rw [hg]; exact hf) with ⟨a, he⟩ | ⟨a, he⟩ | ⟨m2, he⟩ <;>
        simp at he
    · intro hf
      simp only [List.mem_append, List.mem_cons, List.not_mem_nil, or_false,
        reduceCtorEq, false_or] at hf
      rcases hshapes _ (by rw [hg]; exact hf) with ⟨a, he⟩ | ⟨a, he⟩ | ⟨m2, he⟩ <;>
        simp at he
    · intro f hf
      simp only [List.mem_append, List.mem_cons, List.not_mem_nil, or_false,
        reduceCtorEq, false_or] at hf
      rcases hshapes _ (by rw [hg]; exact hf) with ⟨a, he⟩ | ⟨a, he⟩ | ⟨m2, he⟩ <;>
        simp at he
  · intro env city r1 r2 cur fc ft cdf fdf hge1 hb1 hge2 hb2 htc htf hpd hfne
    unfold Whetherproject.main
    dsimp only
    rw [Whetherproject.gw_success env city r1 r2 cur fc hge1 hb1 hge2 hb2]
    simp only [htc, htf, Bool.and_self, if_true]
    rw [hpd]
    have hemp : fdf.isEmpty = false := by
      cases fdf with
      | nil => exact absurd rfl hfne
      | cons a l => rfl
    simp only [Whetherproject.create_visualizations, hemp, Bool.false_eq_true, if_false]
    refine ⟨by simp, by simp, by simp⟩

/-- C2 witness: with no API key configured the interactive run shows the
key error and stops. -/
theorem C2_witness :
    Weatherproject.main sampleCtxNoKey "London" "Paris" true =
      some ([.stError Weatherproject.apiKeyErrorMsg, .stStop], "Paris",
        Weatherproject.noSteps) :=
  C2_output_contract.1 sampleCtxNoKey "London" "Paris" true (by decide) (by decide)
    (by decide) (Or.inl rfl)
